import Mathlib

/-!
Shallow embedding of the TangerineTripBot sources (`telegram-bot.ts`,
`agoda-affiliate.ts`, `prompt-builder.ts`) and proofs about the claims of
the specification.  JavaScript strings are modelled by `String`, JS numbers
by `Int`/`Nat` (with `Option` standing for `undefined`/`NaN` where the code
distinguishes them), JS `Date` values by explicit calendar triples, and the
in-memory session `Map` by an association list.
-/

/-! ### JavaScript string primitives -/

def listPrefixOf : List Char → List Char → Bool
  | [], _ => true
  | _ :: _, [] => false
  | a :: as, b :: bs => a = b && listPrefixOf as bs

def listInfixOf : List Char → List Char → Bool
  | sub, [] => sub.isEmpty
  | sub, c :: rest => listPrefixOf sub (c :: rest) || listInfixOf sub rest

/-- The JS `String.prototype.includes`: `jsIncludes s t` is `s.includes(t)`. -/
def jsIncludes (s t : String) : Bool :=
  listInfixOf t.data s.data

/-- The JS `String.prototype.startsWith`: `jsStartsWith s p` is `s.startsWith(p)`. -/
def jsStartsWith (s p : String) : Bool :=
  listPrefixOf p.data s.data

def splitCharsAux (sep : Char) : List Char → List Char → List String
  | [], acc => [⟨acc.reverse⟩]
  | c :: rest, acc =>
    if c = sep then ⟨acc.reverse⟩ :: splitCharsAux sep rest []
    else splitCharsAux sep rest (c :: acc)

/-- The JS `String.prototype.split` with a single-character separator. -/
def jsSplit (s : String) (sep : Char) : List String :=
  splitCharsAux sep s.data []

/-- The JS `String.prototype.trim` (whitespace at both ends removed). -/
def jsTrim (s : String) : String :=
  ⟨((s.data.dropWhile Char.isWhitespace).reverse.dropWhile Char.isWhitespace).reverse⟩

def lowerChar (c : Char) : Char :=
  if 65 ≤ c.toNat ∧ c.toNat ≤ 90 then Char.ofNat (c.toNat + 32) else c

def upperChar (c : Char) : Char :=
  if 97 ≤ c.toNat ∧ c.toNat ≤ 122 then Char.ofNat (c.toNat - 32) else c

/-- ASCII `String.prototype.toLowerCase`. -/
def jsToLower (s : String) : String := ⟨s.data.map lowerChar⟩

/-- ASCII `String.prototype.toUpperCase`. -/
def jsToUpper (s : String) : String := ⟨s.data.map upperChar⟩

/-- `parseInt(s, 10)`: skip leading whitespace, optional sign, then a maximal
run of decimal digits; `none` models `NaN` (no digits found). Trailing
characters are ignored, as in JS. -/
def jsParseInt (s : String) : Option Int :=
  let cs := s.data.dropWhile (fun c => c.isWhitespace)
  let signAndRest : Bool × List Char :=
    match cs with
    | c :: t => if c = Char.ofNat 45 then (true, t)
                else if c = Char.ofNat 43 then (false, t)
                else (false, c :: t)
    | [] => (false, [])
  let ds := signAndRest.2.takeWhile (fun c => c.isDigit)
  if ds.isEmpty then none
  else
    let n : Nat := ds.foldl (fun a c => a * 10 + (c.toNat - 48)) 0
    some (if signAndRest.1 then -(n : Int) else (n : Int))

/-- Template-literal interpolation of a possibly-`undefined` JS string. -/
def jsShowStr : Option String → String
  | some s => s
  | none => "undefined"

/-- Template-literal interpolation of a possibly-`undefined` JS number. -/
def jsShowInt : Option Int → String
  | some n => toString n
  | none => "undefined"

/-! ### JavaScript `Date` model

A JS `Date` holds an instant; the code only ever constructs midnight dates
(`new Date(y, m, d)`) or offsets the current instant by whole days, and then
compares instants or formats the calendar date.  We model the calendar part
as a triple and the current instant as a triple plus a time-of-day, and we
identify local time with UTC. -/

structure JsDate where
  year : Int
  month : Int
  day : Int
deriving DecidableEq, Repr

/-- The current instant: calendar date plus milliseconds since midnight. -/
structure JsNow where
  date : JsDate
  tod : Nat
deriving DecidableEq, Repr

def isLeapYear (y : Int) : Bool :=
  (y % 4 = 0 && y % 100 != 0) || y % 400 = 0

def daysInMonth (y : Int) (m : Int) : Int :=
  if m = 2 then (if isLeapYear y then 29 else 28)
  else if m = 4 ∨ m = 6 ∨ m = 9 ∨ m = 11 then 30
  else 31

/-- Forward day-overflow normalisation (the `Date.prototype.setDate`
behaviour for day values above the month length), with explicit fuel; the
fuel is always sufficient because every step removes at least 28 days. -/
def normDateFAux : Nat → Int → Int → Int → JsDate
  | 0, y, m, d => ⟨y, m, d⟩
  | fuel + 1, y, m, d =>
    if d ≤ daysInMonth y m then ⟨y, m, d⟩
    else if m ≥ 12 then normDateFAux fuel (y + 1) 1 (d - daysInMonth y m)
    else normDateFAux fuel y (m + 1) (d - daysInMonth y m)

def normDateF (y m d : Int) : JsDate :=
  normDateFAux d.toNat y m d

/-- Backward normalisation for day values below 1. -/
def normDateBAux : Nat → Int → Int → Int → JsDate
  | 0, y, m, d => ⟨y, m, d⟩
  | fuel + 1, y, m, d =>
    if d ≥ 1 then ⟨y, m, d⟩
    else if m ≤ 1 then normDateBAux fuel (y - 1) 12 (d + daysInMonth (y - 1) 12)
    else normDateBAux fuel y (m - 1) (d + daysInMonth y (m - 1))

def normDateB (y m d : Int) : JsDate :=
  normDateBAux (1 - d).toNat y m d

/-- `new Date(y, m - 1, d)` / `setDate d` normalisation of a calendar triple
whose month is in `1..12` but whose day may be out of range. -/
def normDate (y m d : Int) : JsDate :=
  if 1 ≤ d then normDateF y m d else normDateB y m d

/-- Lexicographic (= chronological, for month `1..12`) order on dates. -/
def dateLt (a b : JsDate) : Bool :=
  a.year < b.year ||
    (a.year = b.year && (a.month < b.month ||
      (a.month = b.month && a.day < b.day)))

/-- `d < now` where `d` is a midnight date and `now` the current instant. -/
def dateLtNow (d : JsDate) (now : JsNow) : Bool :=
  dateLt d now.date || (d = now.date && now.tod > 0)

/-- The calendar successor of a valid date. -/
def nextDay (d : JsDate) : JsDate :=
  if d.day < daysInMonth d.year d.month then ⟨d.year, d.month, d.day + 1⟩
  else if d.month ≥ 12 then ⟨d.year + 1, 1, 1⟩
  else ⟨d.year, d.month + 1, 1⟩

def padTwo (n : Int) : String :=
  if 0 ≤ n ∧ n < 10 then "0" ++ toString n else toString n

def padFour (n : Int) : String :=
  if 0 ≤ n ∧ n < 10 then "000" ++ toString n
  else if 0 ≤ n ∧ n < 100 then "00" ++ toString n
  else if 0 ≤ n ∧ n < 1000 then "0" ++ toString n
  else toString n

/-- `date.toISOString().split('T')[0]` (the `formatDate` helper of
`agoda-affiliate.ts`), on the calendar part. -/
def isoDate (d : JsDate) : String :=
  padFour d.year ++ "-" ++ padTwo d.month ++ "-" ++ padTwo d.day

example : jsParseInt "7" = some 7 := by decide
example : jsParseInt "  -42abc" = some (-42) := by decide
example : jsParseInt "abc" = none := by decide
example : jsIncludes "july is nice" "july" = true := by decide
example : jsIncludes "ju" "july" = false := by decide
example : jsSplit "duration_7" (Char.ofNat 95) = ["duration", "7"] := by decide
example : normDate 2025 7 20 = ⟨2025, 7, 20⟩ := by decide
example : normDate 2025 7 35 = ⟨2025, 8, 4⟩ := by decide
example : normDate 2024 1 61 = ⟨2024, 3, 1⟩ := by decide
example : isoDate ⟨2025, 7, 15⟩ = "2025-07-15" := by decide
example : jsTrim "  YES " = "YES" := by decide
example : jsToUpper "yEs" = "YES" := by decide
example : jsToLower "Bangkok" = "bangkok" := by decide

/-! ### JSON values and `JSON.parse`

`parseResponse` in `telegram-bot.ts` extracts a brace-delimited substring
with the regex `/\x7b[\s\S]*\x7d/` and runs `JSON.parse` on it.  We model
JSON values with integer numbers (fractions and exponents make the parser
fail, so theorems conditioned on a successful parse cover the integral
fragment). -/

inductive Json where
  | null : Json
  | bool (b : Bool) : Json
  | num (n : Int) : Json
  | str (s : String) : Json
  | arr (elems : List Json) : Json
  | obj (fields : List (String × Json)) : Json
deriving Repr

def isJsonWs (c : Char) : Bool :=
  c.toNat = 32 || c.toNat = 9 || c.toNat = 10 || c.toNat = 13

def skipWs (cs : List Char) : List Char :=
  cs.dropWhile (fun c => isJsonWs c)

def hexVal (c : Char) : Option Nat :=
  if 48 ≤ c.toNat ∧ c.toNat ≤ 57 then some (c.toNat - 48)
  else if 97 ≤ c.toNat ∧ c.toNat ≤ 102 then some (c.toNat - 87)
  else if 65 ≤ c.toNat ∧ c.toNat ≤ 70 then some (c.toNat - 55)
  else none

/-- Parse a JSON string body (the opening quote already consumed); the fuel
is always sufficient at `cs.length`, every step consuming at least one
character. -/
def parseStringBody : Nat → List Char → List Char → Option (String × List Char)
  | 0, _, _ => none
  | _ + 1, _, [] => none
  | fuel + 1, acc, c :: rest =>
    if c.toNat = 34 then some (⟨acc.reverse⟩, rest)
    else if c.toNat = 92 then
      match rest with
      | [] => none
      | e :: rest2 =>
        if e.toNat = 34 ∨ e.toNat = 92 ∨ e.toNat = 47 then
          parseStringBody fuel (e :: acc) rest2
        else if e = Char.ofNat 98 then parseStringBody fuel (Char.ofNat 8 :: acc) rest2
        else if e = Char.ofNat 102 then parseStringBody fuel (Char.ofNat 12 :: acc) rest2
        else if e = Char.ofNat 110 then parseStringBody fuel (Char.ofNat 10 :: acc) rest2
        else if e = Char.ofNat 114 then parseStringBody fuel (Char.ofNat 13 :: acc) rest2
        else if e = Char.ofNat 116 then parseStringBody fuel (Char.ofNat 9 :: acc) rest2
        else if e = Char.ofNat 117 then
          match rest2 with
          | h1 :: h2 :: h3 :: h4 :: rest3 =>
            match hexVal h1, hexVal h2, hexVal h3, hexVal h4 with
            | some a, some b, some c2, some d =>
              let n := ((a * 16 + b) * 16 + c2) * 16 + d
              if n < 55296 then parseStringBody fuel (Char.ofNat n :: acc) rest3
              else if 57343 < n then parseStringBody fuel (Char.ofNat n :: acc) rest3
              else none
            | _, _, _, _ => none
          | _ => none
        else none
    else if c.toNat < 32 then none
    else parseStringBody fuel (c :: acc) rest

def digitsToNat (ds : List Char) : Nat :=
  ds.foldl (fun a c => a * 10 + (c.toNat - 48)) 0

/-- Parse a JSON number; only integers are supported (a following `.`, `e`
or `E` makes the parse fail rather than silently truncate). -/
def parseNumber (cs : List Char) : Option (Int × List Char) :=
  let negAndRest : Bool × List Char :=
    match cs with
    | c :: t => if c.toNat = 45 then (true, t) else (false, cs)
    | [] => (false, [])
  match negAndRest.2 with
  | [] => none
  | c :: t =>
    if ¬ c.isDigit then none
    else
      let ds := (c :: t).takeWhile (fun d => d.isDigit)
      let rest := (c :: t).dropWhile (fun d => d.isDigit)
      if c = Char.ofNat 48 ∧ ds.length ≠ 1 then none
      else
        match rest with
        | r :: _ =>
          if r.toNat = 46 ∨ r = Char.ofNat 101 ∨ r = Char.ofNat 69 then none
          else some (if negAndRest.1 then -(digitsToNat ds : Int) else (digitsToNat ds : Int), rest)
        | [] => some (if negAndRest.1 then -(digitsToNat ds : Int) else (digitsToNat ds : Int), [])

/-- Intermediate results of the JSON recursive-descent parser: a value, the
items of an array, or the fields of an object. -/
inductive PRes where
  | val (v : Json) : PRes
  | items (vs : List Json) : PRes
  | fields (kvs : List (String × Json)) : PRes

/-- The JSON recursive-descent parser; `mode` 0 parses a value, 1 the items
of an array up to `]`, 2 the fields of an object up to the closing brace.
Structural in the fuel, which `jsonParse` makes large enough. -/
def parseJsonCore : Nat → Nat → List Char → Option (PRes × List Char)
  | 0, _, _ => none
  | fuel + 1, 0, cs =>
    match cs with
    | [] => none
    | c :: rest =>
      if c.toNat = 123 then
        match skipWs rest with
        | c2 :: r2 =>
          if c2.toNat = 125 then some (.val (.obj []), r2)
          else
            match parseJsonCore fuel 2 (c2 :: r2) with
            | some (.fields kvs, r3) => some (.val (.obj kvs), r3)
            | _ => none
        | [] => none
      else if c.toNat = 91 then
        match skipWs rest with
        | c2 :: r2 =>
          if c2.toNat = 93 then some (.val (.arr []), r2)
          else
            match parseJsonCore fuel 1 (c2 :: r2) with
            | some (.items vs, r3) => some (.val (.arr vs), r3)
            | _ => none
        | [] => none
      else if c.toNat = 34 then
        match parseStringBody rest.length [] rest with
        | some (s, r1) => some (.val (.str s), r1)
        | none => none
      else if listPrefixOf "true".data cs then some (.val (.bool true), cs.drop 4)
      else if listPrefixOf "false".data cs then some (.val (.bool false), cs.drop 5)
      else if listPrefixOf "null".data cs then some (.val .null, cs.drop 4)
      else
        match parseNumber cs with
        | some (n, r1) => some (.val (.num n), r1)
        | none => none
  | fuel + 1, 1, cs =>
    match parseJsonCore fuel 0 cs with
    | some (.val v, r1) =>
      match skipWs r1 with
      | c :: r2 =>
        if c.toNat = 44 then
          match parseJsonCore fuel 1 (skipWs r2) with
          | some (.items vs, r3) => some (.items (v :: vs), r3)
          | _ => none
        else if c.toNat = 93 then some (.items [v], r2)
        else none
      | [] => none
    | _ => none
  | fuel + 1, _, cs =>
    match cs with
    | [] => none
    | c :: rest =>
      if c.toNat = 34 then
        match parseStringBody rest.length [] rest with
        | some (k, r1) =>
          match skipWs r1 with
          | c2 :: r2 =>
            if c2.toNat = 58 then
              match parseJsonCore fuel 0 (skipWs r2) with
              | some (.val v, r3) =>
                match skipWs r3 with
                | c3 :: r4 =>
                  if c3.toNat = 44 then
                    match parseJsonCore fuel 2 (skipWs r4) with
                    | some (.fields kvs, r5) => some (.fields ((k, v) :: kvs), r5)
                    | _ => none
                  else if c3.toNat = 125 then some (.fields [(k, v)], r4)
                  else none
                | [] => none
              | _ => none
            else none
          | [] => none
        | none => none
      else none

/-- The embedding of `JSON.parse` (integral-number fragment): parses the
whole string as one JSON value, allowing surrounding whitespace. -/
def jsonParse (s : String) : Option Json :=
  match parseJsonCore (s.data.length + 1) 0 (skipWs s.data) with
  | some (.val v, rest) => if (skipWs rest).isEmpty then some v else none
  | _ => none

/-- Index of the first opening brace. -/
def firstBraceIdx : List Char → Option Nat
  | [] => none
  | c :: rest =>
    if c.toNat = 123 then some 0 else (firstBraceIdx rest).map (· + 1)

/-- Index of the last closing brace. -/
def lastCloseIdx : List Char → Option Nat
  | [] => none
  | c :: rest =>
    match lastCloseIdx rest with
    | some j => some (j + 1)
    | none => if c.toNat = 125 then some 0 else none

/-- The greedy regex `/\x7b[\s\S]*\x7d/`: the substring from the first `\x7b`
to the last `\x7d`, when the latter comes after the former. -/
def jsonMatch (s : String) : Option String :=
  let cs := s.data
  match firstBraceIdx cs, lastCloseIdx cs with
  | some i, some j =>
    if i < j then some ⟨(cs.drop i).take (j - i + 1)⟩ else none
  | _, _ => none

/-- The fallback object returned by `parseResponse` when no JSON-shaped
substring is found in the model reply. -/
def fallbackNoJson : Json :=
  .obj
    [("destination", .str "\x27"),
     ("duration", .str ""),
     ("travelDates", .str ""),
     ("vacationStyle", .str ""),
     ("departureCity", .str ""),
     ("currency", .str ""),
     ("numberAdults", .num 0),
     ("numberKids", .num 0),
     ("luxuryLevel", .num 0),
     ("summary", .str "Unable to generate a detailed itinerary. Please try again."),
     ("dailyPlan", .arr [.str "No daily plan available"]),
     ("locations", .arr [.str "No specific locations available"])]

/-- The fallback object returned by `parseResponse` when the extracted
substring fails to parse. -/
def fallbackParseError : Json :=
  .obj
    [("destination", .str "Unknown destination"),
     ("duration", .str "Unknown duration"),
     ("travelDates", .str "Unknown dates"),
     ("vacationStyle", .str "General tourism"),
     ("departureCity", .str "Unknown departure"),
     ("currency", .str "USD"),
     ("numberAdults", .num 1),
     ("numberKids", .num 0),
     ("luxuryLevel", .num 3),
     ("summary", .str "Error generating itinerary. Please try again."),
     ("dailyPlan", .arr [.str "No daily plan available"]),
     ("locations", .arr [.str "No specific locations available"])]

/-- `parseResponse` of `telegram-bot.ts`: extract a brace-delimited
substring and `JSON.parse` it, substituting a fallback object when the
extraction or the parse fails. -/
def parseResponse (response : String) : Json :=
  match jsonMatch response with
  | none => fallbackNoJson
  | some sub =>
    match jsonParse sub with
    | some v => v
    | none => fallbackParseError

example : jsonParse "\x7b\"a\": 1\x7d" = some (.obj [("a", .num 1)]) := rfl
example : jsonParse " \x7b \"a\" : [1, -2, \"x\"], \"b\": true \x7d " =
    some (.obj [("a", .arr [.num 1, .num (-2), .str "x"]), ("b", .bool true)]) := rfl
example : jsonMatch "pre \x7b\"a\": 1\x7d post" = some "\x7b\"a\": 1\x7d" := by decide
example : jsonMatch "no braces at all" = none := by decide
example : parseResponse "Sure! \x7b\"a\": 1\x7d" = .obj [("a", .num 1)] := rfl
example : parseResponse "nothing here" = fallbackNoJson := rfl
example : parseResponse "text \x7b\"a\": 1\x7d and a stray \x7d" = fallbackParseError := rfl

/-! ### `interface.ts` / `agoda-affiliate.ts` -/

/-- `TripDataRequest` (fields of `interface.ts`); `none` models a JS
`undefined` field of `Partial<TripDataRequest>`. -/
structure TripDataRequest where
  destination : Option String := none
  duration : Option String := none
  timeOfYear : Option String := none
  vacationStyle : Option (List String) := none
  departureCity : Option String := none
  departureDate : Option String := none
  returnDate : Option String := none
  currency : Option String := none
  numberAdults : Option Int := none
  numberKids : Option Int := none
  luxuryLevel : Option Int := none
  budget : Option Int := none
  localTravel : Option Bool := none
  suggestDestination : Option Bool := none
deriving DecidableEq, Repr

/-- The static Agoda city-ID table of `agoda-affiliate.ts`. -/
def agodaCityIds : List (String × Int) :=
  [("bangkok", 9395), ("london", 4548), ("paris", 1633), ("new york", 10451),
   ("tokyo", 4155), ("singapore", 4064), ("dubai", 4376), ("rome", 1722),
   ("bali", 17193), ("phuket", 8064), ("barcelona", 1718), ("hong kong", 1710),
   ("istanbul", 3962), ("kuala lumpur", 4078), ("seoul", 4168),
   ("amsterdam", 1704), ("miami", 10402), ("los angeles", 10401),
   ("berlin", 1712), ("sydney", 14370), ("madrid", 1725), ("venice", 1747),
   ("las vegas", 10389), ("vienna", 1726), ("prague", 1713), ("milan", 1730),
   ("budapest", 1705), ("lisbon", 1724), ("florence", 1719),
   ("san francisco", 10409)]

/-- The partial-match loop: the first table entry whose name contains the
destination or is contained in it, else `0`. -/
def findPartialCity (destination : String) : List (String × Int) → Int
  | [] => 0
  | (city, id) :: rest =>
    if jsIncludes destination city || jsIncludes city destination then id
    else findPartialCity destination rest

def monthNames : List String :=
  ["january", "february", "march", "april", "may", "june", "july", "august",
   "september", "october", "november", "december"]

/-- The month-name scan of the `else` branch (default June = 6). -/
def findMonth (timeOfYear : String) : List String → Nat → Int
  | [], _ => 6
  | m :: rest, i =>
    if jsIncludes timeOfYear m then (i : Int) + 1 else findMonth timeOfYear rest (i + 1)

/-- The season/month keyword chain mapping a lowercased time-of-year phrase
to a target month. -/
def resolveTargetMonth (timeOfYear : String) : Int :=
  if jsIncludes timeOfYear "winter" || jsIncludes timeOfYear "december" ||
      jsIncludes timeOfYear "january" || jsIncludes timeOfYear "february" then 1
  else if jsIncludes timeOfYear "spring" || jsIncludes timeOfYear "march" ||
      jsIncludes timeOfYear "april" || jsIncludes timeOfYear "may" then 4
  else if jsIncludes timeOfYear "summer" || jsIncludes timeOfYear "june" ||
      jsIncludes timeOfYear "july" || jsIncludes timeOfYear "august" then 7
  else if jsIncludes timeOfYear "fall" || jsIncludes timeOfYear "autumn" ||
      jsIncludes timeOfYear "september" || jsIncludes timeOfYear "october" ||
      jsIncludes timeOfYear "november" then 10
  else findMonth timeOfYear monthNames 0

/-- `tripData.duration?.split(' ')[0] || '5'`. -/
def durTok : Option String → String
  | none => "5"
  | some s =>
    let h := (jsSplit s (Char.ofNat 32)).headD ""
    if h = "" then "5" else h

/-- `formatDate` on a possibly invalid `Date` (`none` = Invalid Date, whose
`toISOString()` throws a `RangeError`). -/
def formatDateOpt : Option JsDate → Except String String
  | some d => Except.ok (isoDate d)
  | none => Except.error "Invalid time value"

/-- `new Date()` plus 30 days: the default check-in (and flight departure)
date. -/
def agodaDefaultCheckIn (now : JsNow) : JsDate :=
  normDate now.date.year now.date.month (now.date.day + 30)

/-- `tripData.destination?.toLowerCase() || ''`. -/
def agodaDestination (tripData : TripDataRequest) : String :=
  match tripData.destination with
  | some s => jsToLower s
  | none => ""

/-- The city lookup: exact table hit, else first substring match in either
direction, else the Bangkok default `9395`. -/
def agodaCityId (tripData : TripDataRequest) : Int :=
  let destination := agodaDestination tripData
  let cityId0 : Int :=
    match agodaCityIds.lookup destination with
    | some id => id
    | none => findPartialCity destination agodaCityIds
  if cityId0 = 0 then 9395 else cityId0

/-- The 15th of the resolved target month in the current year, rolled to
the next year when that date is already past. -/
def agodaCheckIn (now : JsNow) (toy : String) : JsDate :=
  let targetMonth := resolveTargetMonth (jsToLower toy)
  let ci0 : JsDate := ⟨now.date.year, targetMonth, 15⟩
  if dateLtNow ci0 now then ⟨now.date.year + 1, targetMonth, 15⟩ else ci0

/-- The check-in/check-out pair of `buildAgodaAffiliateLink`; `none` as a
check-out models the Invalid Date produced by `setDate(NaN)`. -/
def agodaDates (now : JsNow) (tripData : TripDataRequest) : JsDate × Option JsDate :=
  let defaultCheckIn := agodaDefaultCheckIn now
  let defaultCheckOut :=
    normDate defaultCheckIn.year defaultCheckIn.month (defaultCheckIn.day + 5)
  match tripData.timeOfYear with
  | some toy =>
    if toy = "" then (defaultCheckIn, some defaultCheckOut)
    else
      let checkIn := agodaCheckIn now toy
      let checkOut : Option JsDate :=
        match jsParseInt (durTok tripData.duration) with
        | some n => some (normDate checkIn.year checkIn.month (checkIn.day + n))
        | none => none
      (checkIn, checkOut)
  | none => (defaultCheckIn, some defaultCheckOut)

/-- `tripData.numberAdults || 2`. -/
def agodaAdults (tripData : TripDataRequest) : Int :=
  match tripData.numberAdults with
  | some n => if n = 0 then 2 else n
  | none => 2

/-- The conditional `children` parameter. -/
def agodaChildrenPart (tripData : TripDataRequest) : List (String × String) :=
  match tripData.numberKids with
  | some k => if 0 < k then [("children", toString k)] else []
  | none => []

/-- The conditional `hotelStarRating` parameter. -/
def agodaRatingPart (tripData : TripDataRequest) : List (String × String) :=
  match tripData.luxuryLevel with
  | some l => if l ≠ 0 ∧ 0 < l then [("hotelStarRating", toString l)] else []
  | none => []

/-- The query-parameter list built by `buildAgodaAffiliateLink`
(`agoda-affiliate.ts`, lines 42–146); `Except.error` models the thrown
`RangeError` when the check-out date is invalid. -/
def buildAgodaParams (now : JsNow) (tripData : TripDataRequest) :
    Except String (List (String × String)) :=
  match formatDateOpt (agodaDates now tripData).2 with
  | Except.error e => Except.error e
  | Except.ok checkOutStr =>
    Except.ok
      ([("pcs", "1"), ("cid", "1937751"), ("hl", "en-us"),
        ("city", toString (agodaCityId tripData)),
        ("checkIn", isoDate (agodaDates now tripData).1),
        ("checkOut", checkOutStr), ("adults", toString (agodaAdults tripData))] ++
        agodaChildrenPart tripData ++ agodaRatingPart tripData)

def hexDigit (n : Nat) : Char :=
  if n < 10 then Char.ofNat (48 + n) else Char.ofNat (55 + n)

/-- UTF-8 bytes of a code point. -/
def utf8Bytes (n : Nat) : List Nat :=
  if n < 128 then [n]
  else if n < 2048 then [192 + n / 64, 128 + n % 64]
  else if n < 65536 then [224 + n / 4096, 128 + (n / 64) % 64, 128 + n % 64]
  else [240 + n / 262144, 128 + (n / 4096) % 64, 128 + (n / 64) % 64, 128 + n % 64]

def percentByte (b : Nat) : List Char :=
  [Char.ofNat 37, hexDigit (b / 16), hexDigit (b % 16)]

def isUriUnreserved (c : Char) : Bool :=
  c.isAlphanum || c.toNat = 45 || c.toNat = 95 || c.toNat = 46 || c.toNat = 33 ||
    c.toNat = 126 || c.toNat = 42 || c.toNat = 39 || c.toNat = 40 || c.toNat = 41

/-- The JS global `encodeURIComponent`. -/
def encodeURIComponent (s : String) : String :=
  ⟨s.data.flatMap (fun c =>
    if isUriUnreserved c then [c] else (utf8Bytes c.toNat).flatMap percentByte)⟩

def isFormUnreserved (c : Char) : Bool :=
  c.isAlphanum || c.toNat = 42 || c.toNat = 45 || c.toNat = 46 || c.toNat = 95

/-- `application/x-www-form-urlencoded` escaping used by
`URLSearchParams.toString()` (space becomes `+`). -/
def formEncode (s : String) : String :=
  ⟨s.data.flatMap (fun c =>
    if isFormUnreserved c then [c]
    else if c.toNat = 32 then [Char.ofNat 43]
    else (utf8Bytes c.toNat).flatMap percentByte)⟩

def renderParams (ps : List (String × String)) : String :=
  String.intercalate "&" (ps.map (fun p => formEncode p.1 ++ "=" ++ formEncode p.2))

/-- `buildAgodaAffiliateLink`: the hotel-search deep link, or the thrown
error. -/
def buildAgodaAffiliateLink (now : JsNow) (tripData : TripDataRequest) :
    Except String String :=
  (buildAgodaParams now tripData).map
    (fun ps => "https://www.agoda.com/partners/partnersearch.aspx?" ++ renderParams ps)

/-- `buildAgodaFlightLink` (`agoda-affiliate.ts`, lines 153–223). -/
def buildAgodaFlightLink (now : JsNow) (tripData : TripDataRequest) :
    Except String String :=
  let defaultDepartureDate := normDate now.date.year now.date.month (now.date.day + 30)
  let duration? := jsParseInt (durTok tripData.duration)
  let defaultReturnDate : Option JsDate :=
    match duration? with
    | some n =>
      some (normDate defaultDepartureDate.year defaultDepartureDate.month
        (defaultDepartureDate.day + n))
    | none => none
  let dates : JsDate × Option JsDate :=
    match tripData.timeOfYear with
    | some toy =>
      if toy = "" then (defaultDepartureDate, defaultReturnDate)
      else
        let timeOfYear := jsToLower toy
        let currentYear := now.date.year
        let targetMonth := resolveTargetMonth timeOfYear
        let dd0 : JsDate := ⟨currentYear, targetMonth, 15⟩
        let departureDate :=
          if dateLtNow dd0 now then ⟨currentYear + 1, targetMonth, 15⟩ else dd0
        let returnDate : Option JsDate :=
          match duration? with
          | some n =>
            some (normDate departureDate.year departureDate.month (departureDate.day + n))
          | none => none
        (departureDate, returnDate)
    | none => (defaultDepartureDate, defaultReturnDate)
  let origin :=
    encodeURIComponent
      (match tripData.departureCity with
       | some s => if s = "" then "any" else s
       | none => "any")
  let dest :=
    encodeURIComponent
      (match tripData.destination with
       | some s => if s = "" then "any" else s
       | none => "any")
  let adults : Int :=
    match tripData.numberAdults with
    | some n => if n = 0 then 1 else n
    | none => 1
  let children : Int :=
    match tripData.numberKids with
    | some k => k
    | none => 0
  match formatDateOpt dates.2 with
  | Except.error e => Except.error e
  | Except.ok returnStr =>
    Except.ok
      ("https://www.agoda.com/flights?cid=1937751&origin=" ++ origin ++
        "&destination=" ++ dest ++ "&departDate=" ++ isoDate dates.1 ++
        "&returnDate=" ++ returnStr ++ "&adults=" ++ toString adults ++
        "&children=" ++ toString children)

example :
    buildAgodaParams ⟨⟨2025, 10, 12⟩, 3600000⟩
      { destination := some "Bangkok", duration := some "5 days",
        timeOfYear := some "July", numberAdults := some 2, numberKids := some 0,
        luxuryLevel := some 4 } =
    Except.ok
      [("pcs", "1"), ("cid", "1937751"), ("hl", "en-us"), ("city", "9395"),
       ("checkIn", "2026-07-15"), ("checkOut", "2026-07-20"), ("adults", "2"),
       ("hotelStarRating", "4")] := rfl

example :
    buildAgodaParams ⟨⟨2025, 10, 12⟩, 0⟩
      { destination := some "Nowhereville", timeOfYear := some "" } =
    Except.ok
      [("pcs", "1"), ("cid", "1937751"), ("hl", "en-us"), ("city", "9395"),
       ("checkIn", "2025-11-11"), ("checkOut", "2025-11-16"), ("adults", "2")] := rfl

example :
    buildAgodaParams ⟨⟨2025, 10, 12⟩, 0⟩
      { destination := some "Paris", duration := some "abc days",
        timeOfYear := some "July" } =
    Except.error "Invalid time value" := rfl

/-! ### `prompt-builder.ts` -/

def UNKNOWN : String := "unknown"

/-- `x || d` for a possibly-undefined JS string (empty string is falsy). -/
def orTruthyStr (o : Option String) (d : String) : String :=
  match o with
  | some s => if s = "" then d else s
  | none => d

/-- `x || d` for a possibly-undefined JS number (`0` is falsy). -/
def orTruthyInt (o : Option Int) (d : Int) : Int :=
  match o with
  | some n => if n = 0 then d else n
  | none => d

def highlightsSection : String :=
  "\n    An array of string that includes a quick overview of geographical location, official language, key attractions, landmarks or activities.\n"

def highlightsStructure : String :=
  "[\"...\", \"Official language:...\", \"Key attractions include ...\", \"Enjoy/Experience ...\"]"

def timingSection : String :=
  "\n    An array of string that includes:\n    A) Best Time to Visit: Recommend the best months to visit based on ideal weather, crowd levels, and unique experiences.\n    B) If I added Preferred Month/Season, provide details about the expected weather during that month, Any special events or festivals happenings at that month.\n    C) Any pros/cons of visiting during that month (e.g., peak tourist season, lower prices).\n"

def timingStructure : String :=
  "[\"Best Time to Visit:...\", \"Weather During Your Visit:...\", \"Special Events:...\", \"Pros/Cons:...\"]"

def gettingAroundSection : String :=
  "\n    Explain in 2-3 short sentences about the public transportation and other popular forms of traveling.\n    Mention ride-sharing apps, bike rentals, or walking friendliness if relevant.\n    Highlight any city-specific travel quirks (e.g., “Taxis are expensive; use the metro instead”).\n"

def budgetStructure : String :=
  "\x7b\n    flights: \"Estimated cost for round-trip flights...\",\n    transportation: \"Estimated cost for...\",\n    accommodation: \"Estimated cost for... stars...\",\n    activities: \"Estimated cost for...\",\n    food: \"Estimated cost for...\",\n    total: \"Approximately...\",\n\x7d"

def sampleItinerarySection : String :=
  "\n    - Daily breakdown (array of strings), where each string represents activities or places to visit for a single day.\n    - Requirements: align with Interests, Duration of the trip, weather, and special events happening during the trip.\n    - Prioritize unique and engaging experiences rather than just filling up days with less interesting activities.\n    - If needed, suggest nearby destinations for variety and adventure. max 2-hour drive between locations.\n    - Add information about driving time between locations.\n"

def locationsListSection : String :=
  "\n    - Based on the Sample Itinerary, create a list of specific locations that can be found on Google Maps, using their official names.\n"

/-- `createPrompt` of `prompt-builder.ts`. -/
def createPrompt (body : TripDataRequest) : String :=
  "Plan a trip.\n    Departure city: " ++ jsShowStr body.departureCity ++
  ".\n    Destination: " ++ jsShowStr body.destination ++
  ".\n    Duration: " ++ orTruthyStr body.duration UNKNOWN ++
  ".\n    Departure Date: " ++ orTruthyStr body.departureDate UNKNOWN ++
  ".\n    Return Date: " ++ orTruthyStr body.returnDate UNKNOWN ++
  ".\n    Preferred Month/Season: " ++ orTruthyStr body.timeOfYear UNKNOWN ++
  ".\n    Interest: " ++
  (match body.vacationStyle with
   | some l => let j := String.intercalate ", " l; if j = "" then "General" else j
   | none => "General") ++
  ".\n    Number of Adults: " ++ toString (orTruthyInt body.numberAdults 1) ++
  ".\n    Number of Children (under 12 years old): " ++
  toString (orTruthyInt body.numberKids 0) ++
  ".\n    Hotel Rating: " ++
  (match body.luxuryLevel with
   | some l => if l = 0 then UNKNOWN else toString l
   | none => UNKNOWN) ++
  " stars\n    \n    Response format and rules:\n\n   1) Highlights: " ++
  highlightsSection ++
  "\n\n   2) Timing: " ++ timingSection ++
  "\n       \n   3) Getting Around:\n        " ++ gettingAroundSection ++
  "\n\n   4) Sample Itinerary:\n      " ++ sampleItinerarySection ++
  "\n\n    5) Locations List (array of strings):\n        " ++ locationsListSection ++
  "\n   \n   6) Budget Breakdown:\n       A) General Considerations:\n            Account for the Number of Adults and Number of Children in all cost estimations.\n       B) Components of the Budget:\n            Flights: Provide an estimated cost for round-trip economy flights (most updated rates, excluding low-cost airlines).\n            Accommodation: Estimate the cost for " ++
  jsShowInt body.luxuryLevel ++
  " stars hotel. If the Hotel Rating is " ++ UNKNOWN ++
  ", provide a cost range.\n            Other Expenses: Include estimated costs for transportation, activities, and food.\n       C) Currency: " ++
  jsShowStr body.currency ++
  ".\n   \n   \n   Output format JSON:\n   \x7b\n     destination: \"...\",\n     title: \"\x7bduration\x7d Days in \x7bdestination\x7d\",\n     highlights: " ++
  highlightsStructure ++
  ",\n     timing: " ++ timingStructure ++
  ",\n     getting_around: \"...\",\n     sample_itinerary: [\"Day 1: ...\", \"Day 2: ...\", \"Day 3: ...\",... ],\n     locations: [\"...\", \"...\", ...],\n     budget: " ++
  budgetStructure ++ ",\n   \x7d"

/-! ### `telegram-bot.ts`: sessions, outputs and helper tables -/

/-- `UserSession` of `telegram-bot.ts`. -/
structure UserSession where
  step : Nat
  tripData : TripDataRequest
  messageIds : List Nat
  userId : String
deriving DecidableEq, Repr

/-- The in-memory `userSessions` map, as an association list keyed by chat
identifier. -/
abbrev SessionStore := List (Int × UserSession)

def getSession : SessionStore → Int → Option UserSession
  | [], _ => none
  | (c, s) :: rest, chatId => if c = chatId then some s else getSession rest chatId

def setSession : SessionStore → Int → UserSession → SessionStore
  | [], chatId, s => [(chatId, s)]
  | (c, s0) :: rest, chatId, s =>
    if c = chatId then (chatId, s) :: rest else (c, s0) :: setSession rest chatId s

def delSession : SessionStore → Int → SessionStore
  | [], _ => []
  | (c, s) :: rest, chatId =>
    if c = chatId then delSession rest chatId else (c, s) :: delSession rest chatId

/-- Chat-visible actions performed by the handlers (keyboards and message
identifiers elided; analytics calls are not modelled). -/
inductive BotOutput where
  | sendMessage (chatId : Int) (text : String) : BotOutput
  | editMessage (chatId : Int) (text : String) : BotOutput
  | deleteMessage (chatId : Int) : BotOutput
  | answerCallback (text : Option String) : BotOutput
  | startGeneration (chatId : Int) : BotOutput
deriving DecidableEq, Repr

def askDestination (chatId : Int) : BotOutput :=
  .sendMessage chatId "1️⃣ What is your *destination*?"

def askDuration (chatId : Int) : BotOutput :=
  .sendMessage chatId "2️⃣ How many days will your trip be?"

def askTimeOfYear (chatId : Int) : BotOutput :=
  .sendMessage chatId "3️⃣ What is your preferred *season / month*?"

def askVacationStyle (chatId : Int) : BotOutput :=
  .sendMessage chatId "4️⃣ What experience are you looking for? (Select all that apply)"

def askDepartureCity (chatId : Int) : BotOutput :=
  .sendMessage chatId "5️⃣ Where are you departing from?"

def askCurrency (chatId : Int) : BotOutput :=
  .sendMessage chatId "6️⃣ What *currency* would you like to use?"

def askNumberAdults (chatId : Int) : BotOutput :=
  .sendMessage chatId "7️⃣ How many *adults* are traveling?"

def askNumberKids (chatId : Int) : BotOutput :=
  .sendMessage chatId "8️⃣ How many *children* are traveling?"

def askLuxuryLevel (chatId : Int) : BotOutput :=
  .sendMessage chatId "9️⃣ What is your *preferred hotel rating*?"

/-- The currency name/code table of `getCurrencyCode`. -/
def currencyMap : List (String × String) :=
  [("USD", "USD"), ("EUR", "EUR"), ("GBP", "GBP"), ("JPY", "JPY"),
   ("AUD", "AUD"), ("CAD", "CAD"), ("CHF", "CHF"), ("CNY", "CNY"),
   ("HKD", "HKD"), ("NZD", "NZD"), ("INR", "INR"), ("ILS", "ILS"),
   ("MXN", "MXN"), ("SGD", "SGD"), ("THB", "THB"), ("RUB", "RUB"),
   ("ZAR", "ZAR"), ("BRL", "BRL"),
   ("DOLLAR", "USD"), ("US DOLLAR", "USD"), ("AMERICAN DOLLAR", "USD"),
   ("EURO", "EUR"), ("EUROS", "EUR"),
   ("POUND", "GBP"), ("BRITISH POUND", "GBP"), ("STERLING", "GBP"),
   ("YEN", "JPY"), ("JAPANESE YEN", "JPY"),
   ("AUSTRALIAN DOLLAR", "AUD"), ("AUD DOLLAR", "AUD"), ("AUSSIE DOLLAR", "AUD"),
   ("CANADIAN DOLLAR", "CAD"), ("CAD DOLLAR", "CAD"),
   ("SWISS FRANC", "CHF"), ("FRANC", "CHF"),
   ("YUAN", "CNY"), ("RENMINBI", "CNY"), ("CHINESE YUAN", "CNY"),
   ("HONG KONG DOLLAR", "HKD"),
   ("NEW ZEALAND DOLLAR", "NZD"), ("KIWI DOLLAR", "NZD"),
   ("RUPEE", "INR"), ("INDIAN RUPEE", "INR"),
   ("SHEKEL", "ILS"), ("ISRAELI SHEKEL", "ILS"),
   ("PESO", "MXN"), ("MEXICAN PESO", "MXN"),
   ("SINGAPORE DOLLAR", "SGD"),
   ("BAHT", "THB"), ("THAI BAHT", "THB"),
   ("RUBLE", "RUB"), ("RUSSIAN RUBLE", "RUB"),
   ("RAND", "ZAR"), ("SOUTH AFRICAN RAND", "ZAR"),
   ("REAL", "BRL"), ("BRAZILIAN REAL", "BRL")]

def getCurrencyCode (input : String) : Option String :=
  currencyMap.lookup (jsToUpper (jsTrim input))

/-- The trip-summary text shared by the step-9 message handler and the
`luxury_` callback handler (up to the final question line). -/
def tripSummaryLines (td : TripDataRequest) : String :=
  "*Trip Summary:*\n\n" ++
  "🌍 Destination: " ++ jsShowStr td.destination ++ "\n" ++
  "⏱️ Duration: " ++ jsShowStr td.duration ++ "\n" ++
  "🗓️ Preferred Timing: " ++ jsShowStr td.timeOfYear ++ "\n" ++
  "🏖️ Vacation Style: " ++
  (match td.vacationStyle with
   | some l => String.intercalate ", " l
   | none => "undefined") ++ "\n" ++
  "🛫 Departure City: " ++ jsShowStr td.departureCity ++ "\n" ++
  "💲 Currency: " ++ jsShowStr td.currency ++ "\n" ++
  "👨‍👩‍👧‍👦 Travelers: " ++ jsShowInt td.numberAdults ++ " adults, " ++
  jsShowInt td.numberKids ++ " children\n" ++
  "🛌 Hotel Rating: " ++
  (match td.luxuryLevel with
   | some l => if l = 0 then "Not specified" else toString l
   | none => "Not specified") ++ " ⭐\n\n"

def planPromptMsg : String := "Please use /plan to begin planning your trip."

def cancelMsg : String :=
  "Trip planning canceled. Use /plan to begin a new trip planning."

def retryDurationMsg : String :=
  "Please enter a number between 1 and 14 days, or use the buttons below."

def retryAdultsMsg : String :=
  "Please enter a number between 1 and 5 adults, or use the buttons below."

def retryKidsMsg : String :=
  "Please enter a number between 0 and 4 children, or use the buttons below."

def sessionErrorMsg : String :=
  "Sorry, something went wrong with your session. Please use /plan to start again."

def msgErrorApology : String :=
  "Sorry, an error occurred while processing your message. Please use /plan to start over."

/-- The `bot.on('message')` handler (lines 805–1032): dispatch on the
session's step, validate the free-text answer, and ask the next question. -/
def handleMessage (st : SessionStore) (chatId : Int) (text : Option String) :
    SessionStore × List BotOutput :=
  match text with
  | none => (st, [])
  | some t =>
    if t = "" ∨ jsStartsWith t "/" = true then (st, [])
    else
      match getSession st chatId with
      | none => (st, [.sendMessage chatId planPromptMsg])
      | some session =>
        if session.step = 1 then
          let d := jsTrim t
          let td := { session.tripData with
                      destination := some (if d = "" then UNKNOWN else d),
                      suggestDestination := some (d = "") }
          (setSession st chatId { session with step := session.step + 1, tripData := td },
           [askDuration chatId])
        else if session.step = 2 then
          let durationInput := jsTrim t
          if durationInput = "" then (st, [])
          else
            match jsParseInt durationInput with
            | some n =>
              if 0 < n ∧ n ≤ 100 then
                let td := { session.tripData with duration := some (toString n ++ " days") }
                (setSession st chatId
                   { session with step := session.step + 1, tripData := td },
                 [askTimeOfYear chatId])
              else (st, [.sendMessage chatId retryDurationMsg])
            | none => (st, [.sendMessage chatId retryDurationMsg])
        else if session.step = 3 then
          let d := jsTrim t
          let td := { session.tripData with
                      timeOfYear := some (if d = "" then UNKNOWN else d) }
          (setSession st chatId { session with step := session.step + 1, tripData := td },
           [askVacationStyle chatId])
        else if session.step = 4 then
          let td := { session.tripData with
                      vacationStyle := some ((jsSplit (jsTrim t) (Char.ofNat 44)).map jsTrim) }
          (setSession st chatId { session with step := session.step + 1, tripData := td },
           [askDepartureCity chatId])
        else if session.step = 5 then
          let td := { session.tripData with departureCity := some (jsTrim t) }
          (setSession st chatId { session with step := 6, tripData := td },
           [askCurrency chatId])
        else if session.step = 6 then
          let currencyInput := jsTrim t
          if currencyInput = "" then (st, [])
          else
            let finalCurrency := (getCurrencyCode currencyInput).getD currencyInput
            let td := { session.tripData with currency := some finalCurrency }
            (setSession st chatId { session with step := session.step + 1, tripData := td },
             [.sendMessage chatId ("Currency set to: *" ++ finalCurrency ++ "*"),
              askNumberAdults chatId])
        else if session.step = 7 then
          let adultsInput := jsTrim t
          if adultsInput = "" then (st, [])
          else
            match jsParseInt adultsInput with
            | some n =>
              if 0 < n ∧ n ≤ 20 then
                let td := { session.tripData with numberAdults := some n }
                (setSession st chatId
                   { session with step := session.step + 1, tripData := td },
                 [askNumberKids chatId])
              else (st, [.sendMessage chatId retryAdultsMsg])
            | none => (st, [.sendMessage chatId retryAdultsMsg])
        else if session.step = 8 then
          let kidsInput := jsTrim t
          if kidsInput = "" then (st, [])
          else
            match jsParseInt kidsInput with
            | some n =>
              if 0 ≤ n ∧ n ≤ 20 then
                let td := { session.tripData with numberKids := some n }
                (setSession st chatId
                   { session with step := session.step + 1, tripData := td },
                 [askLuxuryLevel chatId])
              else (st, [.sendMessage chatId retryKidsMsg])
            | none => (st, [.sendMessage chatId retryKidsMsg])
        else if session.step = 9 then
          let lux := jsParseInt (jsTrim t)
          let td := { session.tripData with luxuryLevel := lux }
          (setSession st chatId { session with step := session.step + 1, tripData := td },
           [.sendMessage chatId
              (tripSummaryLines td ++ "Is this correct? Type YES to continue or NO to cancel.")])
        else if session.step = 10 then
          if jsToUpper (jsTrim t) = "YES" then (st, [.startGeneration chatId])
          else (delSession st chatId, [.sendMessage chatId cancelMsg])
        else (delSession st chatId, [.sendMessage chatId sessionErrorMsg])

/-- The catch block of `bot.on('message')` (lines 1020–1031): an apology is
sent but the session store is not touched. -/
def handleMessageError (st : SessionStore) (chatId : Int) :
    SessionStore × List BotOutput :=
  (st, [.sendMessage chatId msgErrorApology])

/-! ### `telegram-bot.ts`: itinerary formatting and generation -/

/-- JS property access on a parsed JSON value (`undefined` when absent or
the value is not an object; property access on `null` is handled by the
caller where it would throw). Later duplicate keys win, as in `JSON.parse`. -/
def jsGet : Json → String → Option Json
  | .obj fields, k => fields.reverse.lookup k
  | _, _ => none

/-- JS truthiness of a possibly-undefined JSON value. -/
def jsTruthy : Option Json → Bool
  | none => false
  | some .null => false
  | some (.bool b) => b
  | some (.num n) => n ≠ 0
  | some (.str s) => s ≠ ""
  | some (.arr _) => true
  | some (.obj _) => true

/-- JS string coercion of a JSON value (template-literal interpolation). -/
def jsDisplay : Json → String
  | .null => "null"
  | .bool b => if b then "true" else "false"
  | .num n => toString n
  | .str s => s
  | .obj _ => "[object Object]"
  | .arr xs => String.intercalate "," (xs.attach.map (fun x => jsDisplay x.1))
termination_by j => sizeOf j
decreasing_by
  have h := List.sizeOf_lt_of_mem x.2
  simp only [Json.arr.sizeOf_spec]
  omega

def jsDisplayOpt : Option Json → String
  | some v => jsDisplay v
  | none => "undefined"

def createGoogleMapsUrl (location : String) : String :=
  "https://www.google.com/maps/search/?api=1&query=" ++ encodeURIComponent location

def generateAgodaSection (agodaLink : String) (destination : String) : String :=
  "\n🛌 *BOOK YOUR STAY:*\n" ++
  "We\x27ve partnered with [Agoda.com](" ++ agodaLink ++
  ") to offer you the best deals on hotels, flights, and transfers for your trip to " ++
  destination ++ ".\n\n" ++
  "[🏝 Book on Agoda](" ++ agodaLink ++ ")\n"

/-- One line of the day-by-day block of `formatItinerary`. -/
def formatDayLine (day : String) : String :=
  if jsIncludes day ":" then
    let parts := jsSplit day (Char.ofNat 58)
    let dayNumber := jsTrim (parts.headD "")
    let dayText := jsTrim (String.intercalate ":" parts.tail)
    "*" ++ dayNumber ++ "*: " ++ dayText ++ "\n\n"
  else day ++ "\n"

/-- The try block of `formatItinerary`; `none` models a thrown exception
(`forEach` on a missing or non-array field, a string method on a non-string
day entry, or property access on a missing/null `budget`). -/
def formatItineraryCore (itinerary : Json) (agodaLink flightLink : String) :
    Option String := do
  let title := jsDisplayOpt (jsGet itinerary "title")
  let highlights ← match jsGet itinerary "highlights" with
    | some (.arr xs) => some xs
    | _ => none
  let highlightLines :=
    String.join (highlights.enum.map
      (fun p => toString (p.1 + 1) ++ ". " ++ jsDisplay p.2 ++ "\n"))
  let timing := jsDisplayOpt (jsGet itinerary "timing")
  let gettingAround := jsDisplayOpt (jsGet itinerary "getting_around")
  let days ← match jsGet itinerary "sample_itinerary" with
    | some (.arr xs) => some xs
    | _ => none
  let dayStrings ← days.mapM (fun d =>
    match d with
    | .str s => some s
    | _ => none)
  let dayLines := String.join (dayStrings.map formatDayLine)
  let locations ← match jsGet itinerary "locations" with
    | some (.arr xs) => some xs
    | _ => none
  let locationLines :=
    String.join (locations.enum.map
      (fun p =>
        toString (p.1 + 1) ++ ". [" ++ jsDisplay p.2 ++ "](" ++
          createGoogleMapsUrl (jsDisplay p.2) ++ ")\n"))
  let budget ← match jsGet itinerary "budget" with
    | some .null => none
    | some b => some b
    | none => none
  some
    ("🌍 *" ++ title ++ "*\n\n" ++
     "✨ *HIGHLIGHTS:*\n" ++ highlightLines ++
     "\n🗓️ *BEST TIME TO VISIT:*\n" ++ timing ++ "\n" ++
     "\n🚌 *GETTING AROUND:*\n" ++ gettingAround ++ "\n" ++
     "\n📅 *ITINERARY:*\n\n" ++ dayLines ++
     "\n📍*LOCATIONS:*\n" ++ locationLines ++
     "\n💰 *BUDGET:*\n\n" ++
     "✈️ *Flights*: " ++ jsDisplayOpt (jsGet budget "flights") ++ "\n" ++
     "[Click here to book flights](" ++ flightLink ++ ")\n\n" ++
     "🚕 *Transportation*: " ++ jsDisplayOpt (jsGet budget "transportation") ++ "\n\n" ++
     "🏨 *Accommodation*: " ++ jsDisplayOpt (jsGet budget "accommodation") ++ "\n" ++
     "[Click here to book hotels](" ++ agodaLink ++ ")\n\n" ++
     "🎡 *Activities*: " ++ jsDisplayOpt (jsGet budget "activities") ++ "\n\n" ++
     "🍽️ *Food*: " ++ jsDisplayOpt (jsGet budget "food") ++ "\n\n" ++
     "💲 *Total*: " ++ jsDisplayOpt (jsGet budget "total") ++ "\n" ++
     (if jsTruthy (jsGet budget "not_enough_budget") then
        "\n⚠️ *NOTE:* The provided budget is not sufficient for this trip.\n"
      else ""))

/-- `formatItinerary` with its internal catch-and-fallback. -/
def formatItinerary (itinerary : Json) (agodaLink flightLink : String) : String :=
  match formatItineraryCore itinerary agodaLink flightLink with
  | some m => m
  | none =>
    "🌍 *Trip to " ++
    (let t := jsGet itinerary "title"
     if jsTruthy t then jsDisplayOpt t else "Your Destination") ++
    "*\n\nSorry, there was an error formatting your itinerary. Please try again."

/-- The `tripData` record assembled at the start of `generateItinerary`
(lines 604–617). -/
def prepareTripData (td : TripDataRequest) : TripDataRequest :=
  { destination := some (orTruthyStr td.destination UNKNOWN),
    duration := some (orTruthyStr td.duration UNKNOWN),
    timeOfYear := some (orTruthyStr td.timeOfYear UNKNOWN),
    vacationStyle := td.vacationStyle,
    departureCity := some (orTruthyStr td.departureCity "Unknown"),
    departureDate := none,
    returnDate := none,
    currency := some (orTruthyStr td.currency "USD"),
    numberAdults := some (orTruthyInt td.numberAdults 1),
    numberKids := some (match td.numberKids with
      | some n => if n = 0 then 0 else n
      | none => 0),
    luxuryLevel := td.luxuryLevel,
    budget := td.budget,
    localTravel := some (match td.localTravel with
      | some b => b
      | none => false),
    suggestDestination := some (match td.destination with
      | none => true
      | some s => s = "" ∨ s = UNKNOWN) }

def loadingMsg : String :=
  "🔄 Generating your personalized travel itinerary... Please wait..."

def genApologyMsg : String :=
  "Sorry, an error occurred while generating your itinerary. Please try again with /plan."

def planAgainMsg : String :=
  "Would you like to plan another trip? Use /plan to begin again."

def sessionExpiredMsg : String :=
  "Session expired. Please use /plan to start again."

/-- `generateItinerary` (lines 593–667).  The awaited OpenAI call is the
only step abstracted as a parameter: `Except.error` models a thrown
transport/API error, `Except.ok` the reply text.  `buildAgodaAffiliateLink`
is wrapped by `safeAgodaLinkBuilder`; `buildAgodaFlightLink` is not, so its
exception reaches the catch block, which deletes the session. -/
def generateItinerary (st : SessionStore) (chatId : Int) (now : JsNow)
    (apiResult : Except String String) : SessionStore × List BotOutput :=
  match getSession st chatId with
  | none => (st, [.sendMessage chatId sessionExpiredMsg])
  | some session =>
    let tripData := prepareTripData session.tripData
    let _prompt := createPrompt tripData
    match apiResult with
    | Except.error _ =>
      (delSession st chatId,
       [.sendMessage chatId loadingMsg, .sendMessage chatId genApologyMsg])
    | Except.ok response =>
      let itinerary := parseResponse response
      let agodaLink :=
        match buildAgodaAffiliateLink now tripData with
        | Except.ok link => link
        | Except.error _ => "https://www.agoda.com/"
      match buildAgodaFlightLink now session.tripData with
      | Except.error _ =>
        (delSession st chatId,
         [.sendMessage chatId loadingMsg, .deleteMessage chatId,
          .sendMessage chatId genApologyMsg])
      | Except.ok flightLink =>
        let message :=
          formatItinerary itinerary agodaLink flightLink ++
          generateAgodaSection agodaLink
            (let d := jsGet itinerary "destination"
             if jsTruthy d then jsDisplayOpt d else "your destination")
        (delSession st chatId,
         [.sendMessage chatId loadingMsg, .deleteMessage chatId,
          .sendMessage chatId message, .sendMessage chatId planAgainMsg])

/-- The style toggle of the `style_` callback branch: `splice` out the
first occurrence when present, else `push` at the end. -/
def jsToggle (l : List String) (s : String) : List String :=
  if l.contains s then l.erase s else l ++ [s]

/-- The `bot.on('callback_query')` handler (lines 1035–1319).  `origText`
models `callbackQuery.message?.text` (used by the `confirm_yes` edit). -/
def handleCallback (st : SessionStore) (chatId : Int) (origText : Option String)
    (data : String) : SessionStore × List BotOutput :=
  if chatId = 0 ∨ data = "" then (st, [])
  else
    match getSession st chatId with
    | none => (st, [])
    | some session =>
      if jsStartsWith data "duration_" then
        let n? := jsParseInt ((jsSplit data (Char.ofNat 95)).getD 1 "")
        let shown := match n? with
          | some n => toString n
          | none => "NaN"
        let td := { session.tripData with duration := some (shown ++ " days") }
        (setSession st chatId { session with tripData := td },
         [.answerCallback (some ("Selected: " ++ shown ++ " days")),
          .editMessage chatId ("2️⃣ Trip duration: *" ++ shown ++ " days*"),
          askTimeOfYear chatId])
      else if jsStartsWith data "month_" || jsStartsWith data "season_" then
        let timeValue := (jsSplit data (Char.ofNat 95)).getD 1 ""
        let td := { session.tripData with timeOfYear := some timeValue }
        (setSession st chatId { session with tripData := td },
         [.answerCallback (some ("Selected: " ++ timeValue)),
          .editMessage chatId ("3️⃣ Preferred timing: *" ++ timeValue ++ "*"),
          askVacationStyle chatId])
      else if jsStartsWith data "style_" then
        let style := (jsSplit data (Char.ofNat 95)).getD 1 ""
        if style = "done" then
          let styles := match session.tripData.vacationStyle with
            | some l => if l.isEmpty then ["General Tourism"] else l
            | none => ["General Tourism"]
          let td := { session.tripData with vacationStyle := some styles }
          (setSession st chatId { session with step := 5, tripData := td },
           [.answerCallback (some "Vacation styles confirmed"),
            .editMessage chatId
              ("4️⃣ Vacation styles: *" ++ String.intercalate ", " styles ++ "*"),
            askDepartureCity chatId])
        else
          let cur := match session.tripData.vacationStyle with
            | some l => l
            | none => []
          let present := cur.contains style
          let newStyles := jsToggle cur style
          let td := { session.tripData with vacationStyle := some newStyles }
          let stylesText :=
            if newStyles.isEmpty then "No styles selected"
            else String.intercalate ", " newStyles
          (setSession st chatId { session with tripData := td },
           [.answerCallback
              (some (if present then "Removed: " ++ style else "Added: " ++ style)),
            .editMessage chatId
              ("4️⃣ Vacation styles: *" ++ stylesText ++
               "*\n\nSelect more or click \"Done\" when finished. Click a style again to remove it.")])
      else if jsStartsWith data "currency_" then
        let currency := (jsSplit data (Char.ofNat 95)).getD 1 ""
        let td := { session.tripData with currency := some currency }
        (setSession st chatId { session with tripData := td },
         [.answerCallback (some ("Selected: " ++ currency)),
          .editMessage chatId ("6️⃣ Currency: *" ++ currency ++ "*"),
          askNumberAdults chatId])
      else if jsStartsWith data "adults_" then
        let n? := jsParseInt ((jsSplit data (Char.ofNat 95)).getD 1 "")
        let shown := match n? with
          | some n => toString n
          | none => "NaN"
        let td := { session.tripData with numberAdults := some (n?.getD 1) }
        (setSession st chatId { session with tripData := td },
         [.answerCallback (some ("Selected: " ++ shown ++ " adults")),
          .editMessage chatId ("7️⃣ Adults: *" ++ shown ++ "*"),
          askNumberKids chatId])
      else if jsStartsWith data "kids_" then
        let n? := jsParseInt ((jsSplit data (Char.ofNat 95)).getD 1 "")
        let shown := match n? with
          | some n => toString n
          | none => "NaN"
        let td := { session.tripData with numberKids := some (n?.getD 0) }
        (setSession st chatId { session with tripData := td },
         [.answerCallback (some ("Selected: " ++ shown ++ " children")),
          .editMessage chatId ("8️⃣ Children: *" ++ shown ++ "*"),
          askLuxuryLevel chatId])
      else if jsStartsWith data "luxury_" then
        let n? := jsParseInt ((jsSplit data (Char.ofNat 95)).getD 1 "")
        let shown := match n? with
          | some n => toString n
          | none => "NaN"
        let td := { session.tripData with luxuryLevel := n? }
        (setSession st chatId { session with step := 10, tripData := td },
         [.answerCallback (some ("Selected: " ++ shown ++ " stars")),
          .editMessage chatId ("9️⃣ Hotel rating: *" ++ shown ++ " ⭐*"),
          .sendMessage chatId (tripSummaryLines td ++ "Is this correct?")])
      else if jsStartsWith data "confirm_" then
        let answer := (jsSplit data (Char.ofNat 95)).getD 1 ""
        if answer = "yes" then
          (st,
           [.answerCallback none,
            .editMessage chatId (origText.getD "Trip Summary"),
            .startGeneration chatId])
        else
          (delSession st chatId,
           [.answerCallback none,
            .editMessage chatId
              "❌ Trip planning canceled. Use /plan to begin a new trip planning."])
      else (st, [])

/-! ### Helper lemmas: session store -/

theorem getSession_setSession_same (st : SessionStore) (c : Int) (s : UserSession) :
    getSession (setSession st c s) c = some s := by
  induction st with
  | nil => simp [setSession, getSession]
  | cons p rest ih =>
    obtain ⟨a, b⟩ := p
    by_cases h : a = c
    · simp [setSession, getSession, h]
    · simpa [setSession, getSession, h] using ih

theorem getSession_delSession_same (st : SessionStore) (c : Int) :
    getSession (delSession st c) c = none := by
  induction st with
  | nil => simp [delSession, getSession]
  | cons p rest ih =>
    obtain ⟨a, b⟩ := p
    by_cases h : a = c
    · simpa [delSession, h] using ih
    · simpa [delSession, getSession, h] using ih

/-! ### Helper lemmas: calendar arithmetic -/

theorem daysInMonth_bounds (y m : Int) :
    28 ≤ daysInMonth y m ∧ daysInMonth y m ≤ 31 := by
  unfold daysInMonth
  split
  · split <;> omega
  · split <;> omega

theorem normDateFAux_step (fuel : Nat) :
    ∀ (y m d : Int), 1 ≤ m → m ≤ 12 → 1 ≤ d → d.toNat ≤ fuel →
      normDateFAux (fuel + 1) y m (d + 1) = nextDay (normDateFAux fuel y m d) := by
  induction fuel with
  | zero => intro y m d _ _ h3 h4; omega
  | succ f ih =>
    intro y m d h1 h2 h3 h4
    have hb := daysInMonth_bounds y m
    by_cases hle : d + 1 ≤ daysInMonth y m
    · have hd : d ≤ daysInMonth y m := by omega
      have hlt : d < daysInMonth y m := by omega
      simp only [normDateFAux, if_pos hle, if_pos hd, nextDay, hlt, if_pos]
    · by_cases hd : d ≤ daysInMonth y m
      · have hdd : d = daysInMonth y m := by omega
        by_cases hm : m ≥ 12
        · simp only [normDateFAux, if_neg hle, if_pos hm, if_pos hd]
          have h15 : d + 1 - daysInMonth y m = 1 := by omega
          rw [h15]
          have hb1 := daysInMonth_bounds (y + 1) 1
          simp only [normDateFAux, if_pos (by omega : (1 : Int) ≤ daysInMonth (y + 1) 1),
            nextDay]
          simp [hdd, hm]
        · simp only [normDateFAux, if_neg hle, if_neg hm, if_pos hd]
          have h15 : d + 1 - daysInMonth y m = 1 := by omega
          rw [h15]
          have hb1 := daysInMonth_bounds y (m + 1)
          simp only [normDateFAux, if_pos (by omega : (1 : Int) ≤ daysInMonth y (m + 1)),
            nextDay]
          simp only [if_neg (by omega : ¬ d < daysInMonth y m), if_neg hm]
      · by_cases hm : m ≥ 12
        · simp only [normDateFAux, if_neg hle, if_neg hd, if_pos hm]
          have harr : d + 1 - daysInMonth y m = (d - daysInMonth y m) + 1 := by omega
          rw [harr]
          exact ih (y + 1) 1 (d - daysInMonth y m) (by omega) (by omega) (by omega) (by omega)
        · simp only [normDateFAux, if_neg hle, if_neg hd, if_neg hm]
          have harr : d + 1 - daysInMonth y m = (d - daysInMonth y m) + 1 := by omega
          rw [harr]
          exact ih y (m + 1) (d - daysInMonth y m) (by omega) (by omega) (by omega) (by omega)

theorem normDateFAux_of_le (fuel : Nat) (y m d : Int) (h : d ≤ daysInMonth y m)
    (hf : 1 ≤ fuel) : normDateFAux fuel y m d = ⟨y, m, d⟩ := by
  cases fuel with
  | zero => omega
  | succ f => simp only [normDateFAux, if_pos h]

theorem normDate_fifteen (y m : Int) (h1 : 1 ≤ m) (h2 : m ≤ 12) :
    normDate y m 15 = ⟨y, m, 15⟩ := by
  have hb := daysInMonth_bounds y m
  simp only [normDate, if_pos (by omega : (1 : Int) ≤ 15), normDateF]
  exact normDateFAux_of_le _ y m 15 (by omega) (by norm_num)

theorem normDate_iterate (y m : Int) (h1 : 1 ≤ m) (h2 : m ≤ 12) (n : Nat) :
    normDate y m (15 + n) = nextDay^[n] ⟨y, m, 15⟩ := by
  induction n with
  | zero =>
    simpa using normDate_fifteen y m h1 h2
  | succ k ih =>
    have hcast : (15 : Int) + (k + 1 : Nat) = (15 + (k : Int)) + 1 := by push_cast; ring
    have hpos : (1 : Int) ≤ 15 + (k : Int) := by omega
    have htn : ((15 + (k : Int)) + 1).toNat = (15 + (k : Int)).toNat + 1 := by omega
    rw [hcast]
    have hstep := normDateFAux_step ((15 + (k : Int)).toNat) y m (15 + (k : Int))
      h1 h2 hpos (le_refl _)
    have hL : normDate y m ((15 + (k : Int)) + 1) =
        normDateFAux ((15 + (k : Int)).toNat + 1) y m ((15 + (k : Int)) + 1) := by
      simp only [normDate, if_pos (by omega : (1 : Int) ≤ (15 + (k : Int)) + 1), normDateF, htn]
    have hR : normDate y m (15 + (k : Int)) =
        normDateFAux ((15 + (k : Int)).toNat) y m (15 + (k : Int)) := by
      simp only [normDate, if_pos hpos, normDateF]
    rw [hL, hstep, ← hR]
    have : normDate y m (15 + (k : Int)) = nextDay^[k] ⟨y, m, 15⟩ := by
      simpa using ih
    rw [this, ← Function.iterate_succ_apply' nextDay k]

theorem findMonth_bounds (t : String) :
    ∀ (l : List String) (i : Nat), i + l.length ≤ 12 →
      1 ≤ findMonth t l i ∧ findMonth t l i ≤ 12 := by
  intro l
  induction l with
  | nil => intro i _; simp [findMonth]
  | cons m rest ih =>
    intro i hlen
    rw [List.length_cons] at hlen
    simp only [findMonth]
    split
    · refine ⟨by omega, by omega⟩
    · exact ih (i + 1) (by omega)

theorem resolveTargetMonth_bounds (t : String) :
    1 ≤ resolveTargetMonth t ∧ resolveTargetMonth t ≤ 12 := by
  unfold resolveTargetMonth
  split
  · omega
  · split
    · omega
    · split
      · omega
      · split
        · omega
        · exact findMonth_bounds t monthNames 0 (by simp [monthNames])

/-! ### Helper lemmas: strings and brace scanning -/

theorem string_data_append (a b : String) : (a ++ b).data = a.data ++ b.data := rfl

theorem string_eta (s : String) : String.mk s.data = s := by
  cases s
  rfl

theorem firstBraceIdx_cons_brace (rest : List Char) :
    firstBraceIdx (Char.ofNat 123 :: rest) = some 0 := rfl

theorem firstBraceIdx_append_of_clean (l r : List Char) (j : Nat)
    (hl : ∀ c ∈ l, c.toNat ≠ 123) (hr : firstBraceIdx r = some j) :
    firstBraceIdx (l ++ r) = some (l.length + j) := by
  induction l with
  | nil => simpa using hr
  | cons c rest ih =>
    have hc : c.toNat ≠ 123 := hl c (by simp)
    have ih' := ih (fun x hx => hl x (by simp [hx]))
    show firstBraceIdx (c :: (rest ++ r)) = some ((c :: rest).length + j)
    simp only [firstBraceIdx, if_neg hc]
    rw [ih']
    simp only [Option.map, Option.some.injEq, List.length_cons]
    omega

theorem lastCloseIdx_append_some (l r : List Char) (j : Nat)
    (hr : lastCloseIdx r = some j) :
    lastCloseIdx (l ++ r) = some (l.length + j) := by
  induction l with
  | nil => simpa using hr
  | cons c rest ih =>
    show lastCloseIdx (c :: (rest ++ r)) = some ((c :: rest).length + j)
    simp only [lastCloseIdx, ih, List.length_cons, Option.some.injEq]
    omega

theorem lastCloseIdx_of_clean (r : List Char) (hr : ∀ c ∈ r, c.toNat ≠ 125) :
    lastCloseIdx r = none := by
  induction r with
  | nil => rfl
  | cons c rest ih =>
    have hc : c.toNat ≠ 125 := hr c (by simp)
    have ih' := ih (fun c hc => hr c (by simp [hc]))
    simp [lastCloseIdx, ih', hc]

theorem lastCloseIdx_append_clean (l r : List Char) (hr : ∀ c ∈ r, c.toNat ≠ 125) :
    lastCloseIdx (l ++ r) = lastCloseIdx l := by
  induction l with
  | nil => simpa using lastCloseIdx_of_clean r hr
  | cons c rest ih =>
    simp [lastCloseIdx, ih]

theorem lastCloseIdx_snoc_close (l : List Char) :
    lastCloseIdx (l ++ [Char.ofNat 125]) = some l.length := by
  have h : lastCloseIdx [Char.ofNat 125] = some 0 := rfl
  simpa using lastCloseIdx_append_some l [Char.ofNat 125] 0 h

theorem char_eq_of_toNat (c : Char) (n : Nat) (h : c.toNat = n) : c = Char.ofNat n := by
  have h2 := Char.ofNat_toNat c
  rw [h] at h2
  exact h2.symm

theorem firstBraceIdx_mem (l : List Char) (i : Nat) (h : firstBraceIdx l = some i) :
    l[i]? = some (Char.ofNat 123) := by
  induction l generalizing i with
  | nil => simp [firstBraceIdx] at h
  | cons c rest ih =>
    by_cases hc : c.toNat = 123
    · simp only [firstBraceIdx, if_pos hc, Option.some.injEq] at h
      subst h
      simp [char_eq_of_toNat c 123 hc]
    · simp only [firstBraceIdx, if_neg hc] at h
      cases hh : firstBraceIdx rest with
      | none => rw [hh] at h; simp at h
      | some i' =>
        rw [hh] at h
        simp only [Option.map, Option.some.injEq] at h
        subst h
        simpa using ih i' hh

theorem lastCloseIdx_mem (l : List Char) (j : Nat) (h : lastCloseIdx l = some j) :
    l[j]? = some (Char.ofNat 125) := by
  induction l generalizing j with
  | nil => simp [lastCloseIdx] at h
  | cons c rest ih =>
    simp only [lastCloseIdx] at h
    cases hh : lastCloseIdx rest with
    | some j' =>
      rw [hh] at h
      simp only [Option.some.injEq] at h
      subst h
      simpa using ih j' hh
    | none =>
      rw [hh] at h
      by_cases hc : c.toNat = 125
      · simp only [if_pos hc, Option.some.injEq] at h
        subst h
        simp [char_eq_of_toNat c 125 hc]
      · simp [if_neg hc] at h

/-! ### Claim C5 -/

/-- C5 counterexample: the reply contains the valid JSON object
`\x7b"a": 1\x7d` embedded in prose, but because the prose contains a later
stray `\x7d` the greedy first-to-last-brace extraction feeds
`JSON.parse` an unparseable substring and `parseResponse` returns the
parse-error fallback object instead of the embedded object. -/
theorem c5_counterexample :
    parseResponse "Here is your itinerary: \x7b\"a\": 1\x7d Enjoy the trip :\x7d" =
      fallbackParseError ∧
    parseResponse "Here is your itinerary: \x7b\"a\": 1\x7d Enjoy the trip :\x7d" ≠
      Json.obj [("a", Json.num 1)] := by
  refine ⟨rfl, ?_⟩
  intro h
  rw [show parseResponse "Here is your itinerary: \x7b\"a\": 1\x7d Enjoy the trip :\x7d" =
      fallbackParseError from rfl] at h
  simp [fallbackParseError] at h

/-- C5 (amended): when the first opening brace and the last closing brace of
the reply delimit exactly one valid JSON value (no opening brace in the text
before it, no closing brace in the text after it), `parseResponse` returns
exactly the parsed object; and when the reply has no brace-delimited
substring at all (no opening brace followed later by a closing brace),
`parseResponse` returns the fixed no-JSON fallback object.  In both cases it
returns a value rather than throwing. -/
theorem c5_amended_parseResponse :
    (∀ (pre mid post : String) (v : Json),
      (∀ c ∈ pre.data, c.toNat ≠ 123) →
      (∀ c ∈ post.data, c.toNat ≠ 125) →
      mid.data.head? = some (Char.ofNat 123) →
      mid.data.getLast? = some (Char.ofNat 125) →
      jsonParse mid = some v →
      parseResponse (pre ++ mid ++ post) = v) ∧
    (∀ s : String,
      (¬ ∃ i j : Nat, i < j ∧ s.data[i]? = some (Char.ofNat 123) ∧
        s.data[j]? = some (Char.ofNat 125)) →
      parseResponse s = fallbackNoJson) := by
  constructor
  · intro pre mid post v hpre hpost hhead hlast hparse
    obtain ⟨mdata⟩ := mid
    obtain ⟨l2, hl2⟩ := List.getLast?_eq_some_iff.mp hlast
    simp only at hl2
    cases l2 with
    | nil =>
      rw [hl2] at hhead
      simp only [List.nil_append, List.head?_cons, Option.some.injEq] at hhead
      exact absurd hhead (by decide)
    | cons c0 l2' =>
      rw [hl2] at hhead
      simp only [List.cons_append, List.head?_cons, Option.some.injEq] at hhead
      subst hhead
      have hdata : (pre ++ String.mk mdata ++ post).data =
          (pre.data ++ mdata) ++ post.data := rfl
      have hfirst : firstBraceIdx ((pre.data ++ mdata) ++ post.data) =
          some (pre.data.length + 0) := by
        rw [List.append_assoc]
        refine firstBraceIdx_append_of_clean pre.data (mdata ++ post.data) 0 hpre ?_
        rw [hl2]
        simp only [List.cons_append]
        exact firstBraceIdx_cons_brace _
      have hlast2 : lastCloseIdx ((pre.data ++ mdata) ++ post.data) =
          some (pre.data.length + (l2'.length + 1)) := by
        rw [lastCloseIdx_append_clean _ post.data hpost, hl2,
          show pre.data ++ ((Char.ofNat 123 :: l2') ++ [Char.ofNat 125]) =
            (pre.data ++ (Char.ofNat 123 :: l2')) ++ [Char.ofNat 125] by
              simp [List.append_assoc]]
        rw [lastCloseIdx_snoc_close]
        simp
      have hlen : mdata.length = l2'.length + 2 := by
        rw [hl2]
        simp
      have hjm : jsonMatch (pre ++ String.mk mdata ++ post) = some (String.mk mdata) := by
        simp only [jsonMatch, hdata, hfirst, hlast2]
        rw [if_pos (by omega)]
        congr 1
        rw [show (pre.data.length + (l2'.length + 1)) - (pre.data.length + 0) + 1 =
          mdata.length by omega]
        rw [List.append_assoc, show pre.data.length + 0 = pre.data.length by omega,
          List.drop_left, List.take_left]
      simp only [parseResponse, hjm, hparse]
  · intro s hno
    cases hf : firstBraceIdx s.data with
    | none => simp [parseResponse, jsonMatch, hf]
    | some i =>
      cases hl : lastCloseIdx s.data with
      | none => simp [parseResponse, jsonMatch, hf, hl]
      | some j =>
        by_cases hij : i < j
        · exact absurd ⟨i, j, hij, firstBraceIdx_mem _ _ hf, lastCloseIdx_mem _ _ hl⟩ hno
        · simp [parseResponse, jsonMatch, hf, hl, hij]

/-- C5 witness: both halves of the amended statement applied at concrete
inputs. -/
theorem c5_amended_parseResponse_witness :
    parseResponse ("The plan: " ++ "\x7b\"a\": [1, 2]\x7d" ++ " - enjoy!") =
      Json.obj [("a", Json.arr [Json.num 1, Json.num 2])] ∧
    parseResponse "no braces in sight" = fallbackNoJson := by
  constructor
  · exact c5_amended_parseResponse.1 "The plan: " "\x7b\"a\": [1, 2]\x7d" " - enjoy!"
      (Json.obj [("a", Json.arr [Json.num 1, Json.num 2])])
      (by decide) (by decide) rfl rfl rfl
  · refine c5_amended_parseResponse.2 "no braces in sight" ?_
    rintro ⟨i, j, hij, hi, hj⟩
    have hall : ∀ c ∈ "no braces in sight".data, c.toNat ≠ 123 := by decide
    have := List.getElem?_eq_some_iff.mp hi
    obtain ⟨hlt, hget⟩ := this
    have hmem : "no braces in sight".data[i] ∈ "no braces in sight".data :=
      List.getElem_mem hlt
    rw [hget] at hmem
    exact hall _ hmem (by decide)

/-! ### Claim C2 -/

theorem lookup_eq_none_of_ne (k : String) (l : List (String × Int))
    (h : ∀ p ∈ l, p.1 ≠ k) : List.lookup k l = none := by
  induction l with
  | nil => rfl
  | cons p rest ih =>
    obtain ⟨a, b⟩ := p
    have ha : a ≠ k := h (a, b) (by simp)
    have hbeq : (k == a) = false := by
      simp [beq_eq_false_iff_ne]
      exact fun hh => ha hh.symm
    simp only [List.lookup, hbeq]
    exact ih (fun p hp => h p (by simp [hp]))

theorem findPartialCity_eq_zero (dest : String) (l : List (String × Int))
    (h : ∀ p ∈ l, jsIncludes dest p.1 = false ∧ jsIncludes p.1 dest = false) :
    findPartialCity dest l = 0 := by
  induction l with
  | nil => rfl
  | cons p rest ih =>
    obtain ⟨a, b⟩ := p
    have ha := h (a, b) (by simp)
    simp only [findPartialCity, ha.1, ha.2, Bool.or_self, Bool.false_eq_true, if_false]
    exact ih (fun p hp => h p (by simp [hp]))

/-- C2 counterexample: for the unmatched destination "Nowhereville" the
hotel link does not omit the `city` parameter — the code falls back to
`city=9395` (Bangkok) — so the claim as stated is false (the link is built
without throwing, but with a `city` parameter). -/
theorem c2_counterexample :
    buildAgodaAffiliateLink ⟨⟨2025, 10, 12⟩, 0⟩ { destination := some "Nowhereville" } =
      Except.ok
        "https://www.agoda.com/partners/partnersearch.aspx?pcs=1&cid=1937751&hl=en-us&city=9395&checkIn=2025-11-11&checkOut=2025-11-16&adults=2" ∧
    jsIncludes
      "https://www.agoda.com/partners/partnersearch.aspx?pcs=1&cid=1937751&hl=en-us&city=9395&checkIn=2025-11-11&checkOut=2025-11-16&adults=2"
      "city=9395" = true := by
  refine ⟨rfl, by decide⟩

/-- C2 (amended): for a destination that (case-insensitively) matches no
entry of the city table exactly nor by substring containment in either
direction, every successfully built hotel-link parameter list contains the
default `city=9395` (Bangkok) — the `city` parameter is not omitted, and no
exception arises from the city lookup itself. -/
theorem c2_amended_city_default :
    ∀ (now : JsNow) (trip : TripDataRequest) (L : List (String × String)),
      (∀ p ∈ agodaCityIds,
        p.1 ≠ agodaDestination trip ∧
        jsIncludes (agodaDestination trip) p.1 = false ∧
        jsIncludes p.1 (agodaDestination trip) = false) →
      buildAgodaParams now trip = Except.ok L →
      ("city", "9395") ∈ L := by
  intro now trip L h hok
  have hlk : List.lookup (agodaDestination trip) agodaCityIds = none :=
    lookup_eq_none_of_ne _ _ (fun p hp => (h p hp).1)
  have hfp : findPartialCity (agodaDestination trip) agodaCityIds = 0 :=
    findPartialCity_eq_zero _ _ (fun p hp => ⟨(h p hp).2.1, (h p hp).2.2⟩)
  have hcity : agodaCityId trip = 9395 := by
    simp only [agodaCityId, hlk, hfp]
    norm_num
  have hts : toString (9395 : Int) = "9395" := rfl
  unfold buildAgodaParams at hok
  cases hfd : formatDateOpt (agodaDates now trip).2 with
  | error e => rw [hfd] at hok; exact Except.noConfusion hok
  | ok c =>
    rw [hfd] at hok
    injection hok with h2
    subst h2
    simp [hcity, hts]

/-! ### Claim C8 -/

theorem agodaDates_of_timeOfYear (now : JsNow) (trip : TripDataRequest) (toy : String)
    (htoy : trip.timeOfYear = some toy) (hne : toy ≠ "") :
    agodaDates now trip = (agodaCheckIn now toy,
      match jsParseInt (durTok trip.duration) with
      | some n => some (normDate (agodaCheckIn now toy).year (agodaCheckIn now toy).month
          ((agodaCheckIn now toy).day + n))
      | none => none) := by
  simp only [agodaDates, htoy, if_neg hne]

theorem agodaCheckIn_month (now : JsNow) (toy : String) :
    (agodaCheckIn now toy).month = resolveTargetMonth (jsToLower toy) := by
  simp only [agodaCheckIn]
  split <;> rfl

theorem agodaCheckIn_day (now : JsNow) (toy : String) :
    (agodaCheckIn now toy).day = 15 := by
  simp only [agodaCheckIn]
  split <;> rfl

theorem dateLtNow_next_year_false (now : JsNow) (m d : Int) :
    dateLtNow ⟨now.date.year + 1, m, d⟩ now = false := by
  obtain ⟨⟨ny, nm, nd⟩, tod⟩ := now
  have h1 : ¬(ny + 1 < ny) := by omega
  have h2 : ¬(ny + 1 = ny) := by omega
  simp [dateLtNow, dateLt, JsDate.mk.injEq, h1, h2]

theorem agodaCheckIn_not_past (now : JsNow) (toy : String) :
    dateLtNow (agodaCheckIn now toy) now = false := by
  simp only [agodaCheckIn]
  split
  · exact dateLtNow_next_year_false now _ _
  · rename_i hroll
    simpa using hroll

theorem agodaCheckIn_year (now : JsNow) (toy : String) :
    (agodaCheckIn now toy).year = now.date.year ∨
      ((agodaCheckIn now toy).year = now.date.year + 1 ∧
        dateLtNow ⟨now.date.year, resolveTargetMonth (jsToLower toy), 15⟩ now = true) := by
  simp only [agodaCheckIn]
  split
  · rename_i hroll
    exact Or.inr ⟨rfl, hroll⟩
  · exact Or.inl rfl

/-- C8 counterexample: with a non-empty time of year and the non-empty but
unparseable duration "abc days", the builder throws (Invalid Date) instead
of defaulting to a 5-day stay. -/
theorem c8_counterexample :
    buildAgodaParams ⟨⟨2025, 10, 12⟩, 0⟩
      { destination := some "Paris", duration := some "abc days",
        timeOfYear := some "July" } =
    Except.error "Invalid time value" := rfl

/-- C8 (amended): with a non-empty time of year, the check-in date is the
15th of the resolved target month in the current year, rolled to the next
year when already past; when the duration string is missing, or its first
space-separated token is empty or parses to a non-negative integer `n`
(default 5 for a missing/empty token), the check-out date is the check-in
date advanced by `n` calendar days.  When the first token is non-empty but
unparseable, the builder instead throws (`setDate(NaN)` produces an Invalid
Date whose ISO formatting throws). -/
theorem c8_amended_dates :
    (∀ (now : JsNow) (trip : TripDataRequest) (toy : String) (n : Int),
      trip.timeOfYear = some toy → toy ≠ "" →
      jsParseInt (durTok trip.duration) = some n → 0 ≤ n →
      ∃ (L : List (String × String)) (ci : JsDate),
        buildAgodaParams now trip = Except.ok L ∧
        ("checkIn", isoDate ci) ∈ L ∧
        ("checkOut", isoDate (nextDay^[n.toNat] ci)) ∈ L ∧
        ci.month = resolveTargetMonth (jsToLower toy) ∧
        ci.day = 15 ∧
        dateLtNow ci now = false ∧
        (ci.year = now.date.year ∨
          (ci.year = now.date.year + 1 ∧
            dateLtNow ⟨now.date.year, resolveTargetMonth (jsToLower toy), 15⟩ now
              = true))) ∧
    (∀ (now : JsNow) (trip : TripDataRequest) (toy : String),
      trip.timeOfYear = some toy → toy ≠ "" →
      jsParseInt (durTok trip.duration) = none →
      buildAgodaParams now trip = Except.error "Invalid time value") := by
  constructor
  · intro now trip toy n htoy hne hdur hn
    have hdates := agodaDates_of_timeOfYear now trip toy htoy hne
    rw [hdur] at hdates
    have hok : buildAgodaParams now trip = Except.ok
        ([("pcs", "1"), ("cid", "1937751"), ("hl", "en-us"),
          ("city", toString (agodaCityId trip)),
          ("checkIn", isoDate (agodaCheckIn now toy)),
          ("checkOut", isoDate (normDate (agodaCheckIn now toy).year
            (agodaCheckIn now toy).month ((agodaCheckIn now toy).day + n))),
          ("adults", toString (agodaAdults trip))] ++
          agodaChildrenPart trip ++ agodaRatingPart trip) := by
      unfold buildAgodaParams
      rw [hdates]
      rfl
    have hmb := resolveTargetMonth_bounds (jsToLower toy)
    have hco : normDate (agodaCheckIn now toy).year (agodaCheckIn now toy).month
        ((agodaCheckIn now toy).day + n) = nextDay^[n.toNat] (agodaCheckIn now toy) := by
      rw [agodaCheckIn_month, agodaCheckIn_day]
      rw [show (15 : Int) + n = 15 + (n.toNat : Int) by omega]
      rw [normDate_iterate (agodaCheckIn now toy).year (resolveTargetMonth (jsToLower toy))
        hmb.1 hmb.2 n.toNat]
      congr 1
      rw [show (⟨(agodaCheckIn now toy).year, resolveTargetMonth (jsToLower toy), 15⟩ :
          JsDate) = agodaCheckIn now toy by
        rw [← agodaCheckIn_month now toy, ← agodaCheckIn_day now toy]]
    refine ⟨_, agodaCheckIn now toy, hok, by simp, ?_,
      agodaCheckIn_month now toy, agodaCheckIn_day now toy,
      agodaCheckIn_not_past now toy, agodaCheckIn_year now toy⟩
    rw [← hco]
    simp
  · intro now trip toy htoy hne hdur
    have hdates := agodaDates_of_timeOfYear now trip toy htoy hne
    rw [hdur] at hdates
    unfold buildAgodaParams
    rw [hdates]
    rfl

/-- C8 witness: the amended statement applied with duration "5 days"
(parses to 5) and with the unparseable "abc days". -/
theorem c8_amended_dates_witness :
    (∃ (L : List (String × String)) (ci : JsDate),
      buildAgodaParams ⟨⟨2025, 10, 12⟩, 0⟩
        { destination := some "Paris", duration := some "5 days",
          timeOfYear := some "September" } = Except.ok L ∧
      ("checkIn", isoDate ci) ∈ L ∧
      ("checkOut", isoDate (nextDay^[(5 : Int).toNat] ci)) ∈ L ∧
      ci.month = resolveTargetMonth (jsToLower "September") ∧
      ci.day = 15 ∧
      dateLtNow ci ⟨⟨2025, 10, 12⟩, 0⟩ = false ∧
      (ci.year = (2025 : Int) ∨
        (ci.year = (2025 : Int) + 1 ∧
          dateLtNow ⟨2025, resolveTargetMonth (jsToLower "September"), 15⟩
            ⟨⟨2025, 10, 12⟩, 0⟩ = true))) ∧
    buildAgodaParams ⟨⟨2025, 10, 12⟩, 0⟩
      { destination := some "Paris", duration := some "abc days",
        timeOfYear := some "September" } = Except.error "Invalid time value" :=
  ⟨c8_amended_dates.1 ⟨⟨2025, 10, 12⟩, 0⟩
      { destination := some "Paris", duration := some "5 days",
        timeOfYear := some "September" } "September" 5 rfl (by decide) rfl (by decide),
   c8_amended_dates.2 ⟨⟨2025, 10, 12⟩, 0⟩
      { destination := some "Paris", duration := some "abc days",
        timeOfYear := some "September" } "September" rfl (by decide) rfl⟩

/-! ### Claim C9 -/

theorem dateLtNow_prev_year_true (now : JsNow) (m d : Int) :
    dateLtNow ⟨now.date.year - 1, m, d⟩ now = true := by
  obtain ⟨⟨ny, nm, nd⟩, tod⟩ := now
  have h1 : ny - 1 < ny := by omega
  simp [dateLtNow, dateLt, h1]

/-- The end-to-end scenario trip of the specification: Bangkok, 5 days,
July, 2 adults, 0 kids, hotel rating 4. -/
def trip9 : TripDataRequest :=
  { destination := some "Bangkok", duration := some "5 days",
    timeOfYear := some "July", numberAdults := some 2, numberKids := some 0,
    luxuryLevel := some 4 }

/-- C9: for the Bangkok/5 days/July/2 adults/0 kids/4 stars trip and any
current instant, the hotel-link parameters contain `city=9395`, `adults=2`,
`hotelStarRating=4`, and a check-in equal to the 15th of July of the nearest
occurrence that is not already past (the previous July 15 is past). -/
theorem c9_bangkok_link (now : JsNow) :
    ∃ (L : List (String × String)) (y : Int),
      buildAgodaParams now trip9 = Except.ok L ∧
      ("city", "9395") ∈ L ∧
      ("adults", "2") ∈ L ∧
      ("hotelStarRating", "4") ∈ L ∧
      ("checkIn", isoDate ⟨y, 7, 15⟩) ∈ L ∧
      dateLtNow ⟨y, 7, 15⟩ now = false ∧
      dateLtNow ⟨y - 1, 7, 15⟩ now = true := by
  have hm : resolveTargetMonth (jsToLower "July") = 7 := rfl
  have hdates := agodaDates_of_timeOfYear now trip9 "July" rfl (by decide)
  rw [show jsParseInt (durTok trip9.duration) = some 5 from rfl] at hdates
  have hdates2 : agodaDates now trip9 = (agodaCheckIn now "July",
      some (normDate (agodaCheckIn now "July").year (agodaCheckIn now "July").month
        ((agodaCheckIn now "July").day + 5))) := by
    rw [hdates]
  have hok : buildAgodaParams now trip9 = Except.ok
      ([("pcs", "1"), ("cid", "1937751"), ("hl", "en-us"),
        ("city", toString (agodaCityId trip9)),
        ("checkIn", isoDate (agodaCheckIn now "July")),
        ("checkOut", isoDate (normDate (agodaCheckIn now "July").year
          (agodaCheckIn now "July").month ((agodaCheckIn now "July").day + 5))),
        ("adults", toString (agodaAdults trip9))] ++
        agodaChildrenPart trip9 ++ agodaRatingPart trip9) := by
    unfold buildAgodaParams
    rw [hdates2]
    rfl
  have hcity : toString (agodaCityId trip9) = "9395" := rfl
  have hadults : toString (agodaAdults trip9) = "2" := rfl
  have hkids : agodaChildrenPart trip9 = [] := rfl
  have hrating : agodaRatingPart trip9 = [("hotelStarRating", "4")] := rfl
  have hci : agodaCheckIn now "July" = ⟨(agodaCheckIn now "July").year, 7, 15⟩ := by
    rw [show (7 : Int) = resolveTargetMonth (jsToLower "July") from hm.symm]
    rw [← agodaCheckIn_month now "July", ← agodaCheckIn_day now "July"]
  refine ⟨_, (agodaCheckIn now "July").year, hok, ?_, ?_, ?_, ?_, ?_, ?_⟩
  · simp [hcity]
  · simp [hadults]
  · simp [hrating]
  · rw [← hci]
    simp
  · rw [← hci]
    exact agodaCheckIn_not_past now "July"
  · rcases agodaCheckIn_year now "July" with hy | ⟨hy, hcond⟩
    · rw [hy]
      exact dateLtNow_prev_year_true now 7 15
    · rw [show ((agodaCheckIn now "July").year - 1 : Int) = now.date.year by omega]
      rw [hm] at hcond
      exact hcond

/-! ### Claim C10 -/

/-- C10: a non-command text message from a chat with no session only
prompts for /plan; the session store is returned unchanged and no session
is created. -/
theorem c10_no_session_frame :
    ∀ (st : SessionStore) (chatId : Int) (t : String),
      getSession st chatId = none → t ≠ "" → jsStartsWith t "/" = false →
      handleMessage st chatId (some t) = (st, [.sendMessage chatId planPromptMsg]) := by
  intro st c t hget hne hsl
  simp [handleMessage, hne, hsl, hget]

/-- C10 witness. -/
theorem c10_no_session_frame_witness :
    handleMessage [] 7 (some "hello") = ([], [.sendMessage 7 planPromptMsg]) :=
  c10_no_session_frame [] 7 "hello" rfl (by decide) rfl

/-! ### Claim C6 -/

/-- C6: at the confirmation step a trimmed, case-insensitive "YES" triggers
itinerary generation; any other message sends the cancellation message as
the only output and removes the session from the store. -/
theorem c6_confirmation :
    ∀ (st : SessionStore) (chatId : Int) (session : UserSession) (t : String),
      getSession st chatId = some session → session.step = 10 →
      t ≠ "" → jsStartsWith t "/" = false →
      ((jsToUpper (jsTrim t) = "YES" →
        handleMessage st chatId (some t) = (st, [.startGeneration chatId])) ∧
       (jsToUpper (jsTrim t) ≠ "YES" →
        handleMessage st chatId (some t) =
          (delSession st chatId, [.sendMessage chatId cancelMsg]) ∧
        getSession (handleMessage st chatId (some t)).1 chatId = none)) := by
  intro st c session t hget hstep hne hsl
  constructor
  · intro hyes
    simp [handleMessage, hne, hsl, hget, hstep, hyes]
  · intro hno
    have hmain : handleMessage st c (some t) =
        (delSession st c, [.sendMessage c cancelMsg]) := by
      simp [handleMessage, hne, hsl, hget, hstep, hno]
    exact ⟨hmain, by rw [hmain]; exact getSession_delSession_same st c⟩

/-- C6 witness: a "  yes " confirmation and a "NO" cancellation on
concrete sessions. -/
theorem c6_confirmation_witness :
    handleMessage [(1, { step := 10, tripData := {}, messageIds := [], userId := "" })]
      1 (some "  yes ") =
      ([(1, { step := 10, tripData := {}, messageIds := [], userId := "" })],
       [.startGeneration 1]) ∧
    handleMessage [(1, { step := 10, tripData := {}, messageIds := [], userId := "" })]
      1 (some "NO") =
      (delSession [(1, { step := 10, tripData := {}, messageIds := [], userId := "" })] 1,
       [.sendMessage 1 cancelMsg]) :=
  ⟨(c6_confirmation [(1, { step := 10, tripData := {}, messageIds := [], userId := "" })]
      1 { step := 10, tripData := {}, messageIds := [], userId := "" } "  yes "
      rfl rfl (by decide) rfl).1 (by decide),
   ((c6_confirmation [(1, { step := 10, tripData := {}, messageIds := [], userId := "" })]
      1 { step := 10, tripData := {}, messageIds := [], userId := "" } "NO"
      rfl rfl (by decide) rfl).2 (by decide)).1⟩

/-! ### Claim C4 -/

/-- C4 counterexample: an exception caught by the message handler's catch
block (lines 1020–1031) sends an apology but does not delete the session:
the session is still present afterwards, contradicting "every error path
ends the session". -/
theorem c4_counterexample :
    getSession
      (handleMessageError [(1, { step := 4, tripData := {}, messageIds := [], userId := "" })] 1).1
      1 ≠ none := by
  decide

/-- C4 (amended): after `generateItinerary` runs — whatever the outcome of
the model call and of the flight-link builder — the session for that chat is
absent from the store, and a thrown model call produces exactly the loading
message followed by the apology; the message handler's catch block, by
contrast, sends its apology and leaves the store unchanged. -/
theorem c4_amended_error_paths :
    (∀ (st : SessionStore) (chatId : Int) (now : JsNow) (res : Except String String),
      getSession (generateItinerary st chatId now res).1 chatId = none) ∧
    (∀ (st : SessionStore) (chatId : Int) (session : UserSession) (now : JsNow)
        (e : String),
      getSession st chatId = some session →
      generateItinerary st chatId now (Except.error e) =
        (delSession st chatId,
         [.sendMessage chatId loadingMsg, .sendMessage chatId genApologyMsg])) ∧
    (∀ (st : SessionStore) (chatId : Int),
      handleMessageError st chatId = (st, [.sendMessage chatId msgErrorApology])) := by
  refine ⟨?_, ?_, fun st c => rfl⟩
  · intro st c now res
    cases hg : getSession st c with
    | none => simpa [generateItinerary, hg] using hg
    | some session =>
      cases res with
      | error e => simp [generateItinerary, hg, getSession_delSession_same]
      | ok r =>
        cases hf : buildAgodaFlightLink now session.tripData with
        | error e => simp [generateItinerary, hg, hf, getSession_delSession_same]
        | ok link => simp [generateItinerary, hg, hf, getSession_delSession_same]
  · intro st c session now e hget
    simp [generateItinerary, hget]

/-- C4 witness: the generation-error conjunct applied at a concrete store. -/
theorem c4_amended_error_paths_witness :
    generateItinerary [(1, { step := 10, tripData := {}, messageIds := [], userId := "" })]
      1 ⟨⟨2025, 10, 12⟩, 0⟩ (Except.error "boom") =
      (delSession [(1, { step := 10, tripData := {}, messageIds := [], userId := "" })] 1,
       [.sendMessage 1 loadingMsg, .sendMessage 1 genApologyMsg]) :=
  c4_amended_error_paths.2.1
    [(1, { step := 10, tripData := {}, messageIds := [], userId := "" })] 1
    { step := 10, tripData := {}, messageIds := [], userId := "" }
    ⟨⟨2025, 10, 12⟩, 0⟩ "boom" rfl

/-! ### Claim C3 -/

/-- A numeric-step answer that is non-empty after trimming but unparseable
or out of the validated range (duration 1..100, adults 1..20, kids 0..20). -/
def invalidNumericInput (step : Nat) (t : String) : Bool :=
  jsTrim t ≠ "" &&
  (match jsParseInt (jsTrim t) with
   | none => true
   | some n =>
     if step = 2 then !(decide (0 < n ∧ n ≤ 100))
     else if step = 7 then !(decide (0 < n ∧ n ≤ 20))
     else if step = 8 then !(decide (0 ≤ n ∧ n ≤ 20))
     else false)

/-- The re-prompt text the handler sends for each validated numeric step. -/
def retryPromptOf (step : Nat) : String :=
  if step = 2 then retryDurationMsg
  else if step = 7 then retryAdultsMsg
  else retryKidsMsg

/-- C3 counterexample: at the luxury-level step (9), the unparseable answer
"abc" does not leave the step unchanged — the handler stores no rating and
advances to the confirmation step. -/
theorem c3_counterexample :
    (getSession
      (handleMessage [(1, { step := 9, tripData := {}, messageIds := [], userId := "" })]
        1 (some "abc")).1 1).map UserSession.step ≠ some 9 := by
  decide

/-- C3 (amended): the duration, adults and kids steps validate their input —
a non-empty unparseable or out-of-range answer leaves the whole store
unchanged and sends exactly the step's re-prompt; the luxury-level step
performs no validation: an unparseable answer stores `undefined` as the
rating and still advances the step by one. -/
theorem c3_amended_numeric_validation :
    (∀ (st : SessionStore) (chatId : Int) (session : UserSession) (t : String),
      getSession st chatId = some session →
      (session.step = 2 ∨ session.step = 7 ∨ session.step = 8) →
      t ≠ "" → jsStartsWith t "/" = false →
      invalidNumericInput session.step t = true →
      handleMessage st chatId (some t) =
        (st, [.sendMessage chatId (retryPromptOf session.step)])) ∧
    (∀ (st : SessionStore) (chatId : Int) (session : UserSession) (t : String),
      getSession st chatId = some session → session.step = 9 →
      t ≠ "" → jsStartsWith t "/" = false →
      jsParseInt (jsTrim t) = none →
      getSession (handleMessage st chatId (some t)).1 chatId =
        some { session with
               step := session.step + 1
               tripData := { session.tripData with luxuryLevel := none } }) := by
  constructor
  · intro st c session t hget hsteps hne hsl hinv
    rw [invalidNumericInput, Bool.and_eq_true] at hinv
    obtain ⟨htrim, hrest⟩ := hinv
    have htrim' : jsTrim t ≠ "" := by simpa using htrim
    rcases hsteps with hstep | hstep | hstep
    · cases hp : jsParseInt (jsTrim t) with
      | none => simp [handleMessage, hne, hsl, hget, hstep, htrim', hp, retryPromptOf]
      | some n =>
        simp only [hstep, hp, reduceIte] at hrest
        have hr : ¬(0 < n ∧ n ≤ 100) := by
          have := hrest
          simp at this
          omega
        simp [handleMessage, hne, hsl, hget, hstep, htrim', hp, hr, retryPromptOf]
    · cases hp : jsParseInt (jsTrim t) with
      | none => simp [handleMessage, hne, hsl, hget, hstep, htrim', hp, retryPromptOf]
      | some n =>
        simp only [hstep, hp, reduceIte] at hrest
        have hr : ¬(0 < n ∧ n ≤ 20) := by
          have := hrest
          simp at this
          omega
        simp [handleMessage, hne, hsl, hget, hstep, htrim', hp, hr, retryPromptOf]
    · cases hp : jsParseInt (jsTrim t) with
      | none => simp [handleMessage, hne, hsl, hget, hstep, htrim', hp, retryPromptOf]
      | some n =>
        simp only [hstep, hp, reduceIte] at hrest
        have hr : ¬(0 ≤ n ∧ n ≤ 20) := by
          have := hrest
          simp at this
          omega
        simp [handleMessage, hne, hsl, hget, hstep, htrim', hp, hr, retryPromptOf]
  · intro st c session t hget hstep hne hsl hp
    simp [handleMessage, hne, hsl, hget, hstep, hp, getSession_setSession_same]

/-- C3 witness: out-of-range duration "999" re-prompts without change;
unparseable luxury level "abc" advances. -/
theorem c3_amended_numeric_validation_witness :
    handleMessage [(1, { step := 2, tripData := {}, messageIds := [], userId := "" })]
      1 (some "999") =
      ([(1, { step := 2, tripData := {}, messageIds := [], userId := "" })],
       [.sendMessage 1 (retryPromptOf 2)]) ∧
    getSession
      (handleMessage [(1, { step := 9, tripData := {}, messageIds := [], userId := "" })]
        1 (some "abc")).1 1 =
      some { step := 10, tripData := { luxuryLevel := none }, messageIds := [],
             userId := "" } :=
  ⟨c3_amended_numeric_validation.1
      [(1, { step := 2, tripData := {}, messageIds := [], userId := "" })] 1
      { step := 2, tripData := {}, messageIds := [], userId := "" } "999"
      rfl (Or.inl rfl) (by decide) rfl (by decide),
   c3_amended_numeric_validation.2
      [(1, { step := 9, tripData := {}, messageIds := [], userId := "" })] 1
      { step := 9, tripData := {}, messageIds := [], userId := "" } "abc"
      rfl rfl (by decide) rfl rfl⟩

/-! ### Claim C1 -/

/-- A free-text answer the handler accepts at the given step (steps with
validation: duration 1..100, currency non-empty, adults 1..20, kids
0..20; the other steps accept anything). -/
def wellFormedAnswer (step : Nat) (t : String) : Bool :=
  if step = 2 then
    jsTrim t ≠ "" &&
      (match jsParseInt (jsTrim t) with
       | some n => decide (0 < n ∧ n ≤ 100)
       | none => false)
  else if step = 6 then jsTrim t ≠ ""
  else if step = 7 then
    jsTrim t ≠ "" &&
      (match jsParseInt (jsTrim t) with
       | some n => decide (0 < n ∧ n ≤ 20)
       | none => false)
  else if step = 8 then
    jsTrim t ≠ "" &&
      (match jsParseInt (jsTrim t) with
       | some n => decide (0 ≤ n ∧ n ≤ 20)
       | none => false)
  else true

/-- C1 counterexample: a `duration_7` button click at step 2 does not
increment the step — the callback handler stores the duration and asks the
next question but leaves `session.step` at 2, not 3. -/
theorem c1_counterexample :
    (getSession
      (handleCallback [(1, { step := 2, tripData := {}, messageIds := [], userId := "" })]
        1 none "duration_7").1 1).map UserSession.step ≠ some 3 := by
  decide

/-- C1 (amended): a well-formed free-text answer at a non-terminal step
increments the step by exactly one, but button-click payloads do not: the
`duration_`, `month_`/`season_`, `currency_`, `adults_` and `kids_`
callback handlers leave the step unchanged (they only ask the next
question), while `style_done` sets the step to 5 and `luxury_` sets it to
10. -/
theorem c1_amended_step_advance :
    (∀ (st : SessionStore) (chatId : Int) (session : UserSession) (t : String),
      getSession st chatId = some session →
      1 ≤ session.step → session.step ≤ 9 →
      t ≠ "" → jsStartsWith t "/" = false →
      wellFormedAnswer session.step t = true →
      (getSession (handleMessage st chatId (some t)).1 chatId).map UserSession.step =
        some (session.step + 1)) ∧
    (∀ (st : SessionStore) (chatId : Int) (session : UserSession)
        (origText : Option String),
      getSession st chatId = some session → chatId ≠ 0 →
      ((getSession (handleCallback st chatId origText "duration_7").1 chatId).map
          UserSession.step = some session.step ∧
       (getSession (handleCallback st chatId origText "month_July").1 chatId).map
          UserSession.step = some session.step ∧
       (getSession (handleCallback st chatId origText "season_Winter").1 chatId).map
          UserSession.step = some session.step ∧
       (getSession (handleCallback st chatId origText "currency_USD").1 chatId).map
          UserSession.step = some session.step ∧
       (getSession (handleCallback st chatId origText "adults_2").1 chatId).map
          UserSession.step = some session.step ∧
       (getSession (handleCallback st chatId origText "kids_0").1 chatId).map
          UserSession.step = some session.step ∧
       (getSession (handleCallback st chatId origText "style_done").1 chatId).map
          UserSession.step = some 5 ∧
       (getSession (handleCallback st chatId origText "luxury_4").1 chatId).map
          UserSession.step = some 10)) := by
  constructor
  · intro st c session t hget h1 h9 hne hsl hwf
    obtain ⟨step, td, mids, uid⟩ := session
    simp only at h1 h9 hwf ⊢
    interval_cases step
    · simp [handleMessage, hne, hsl, hget, getSession_setSession_same]
    · simp only [wellFormedAnswer, reduceIte] at hwf
      rw [Bool.and_eq_true] at hwf
      obtain ⟨htrim, hmatch⟩ := hwf
      have htrim' : jsTrim t ≠ "" := by simpa using htrim
      cases hp : jsParseInt (jsTrim t) with
      | none => rw [hp] at hmatch; simp at hmatch
      | some n =>
        rw [hp] at hmatch
        have hr : 0 < n ∧ n ≤ 100 := by simpa using hmatch
        simp [handleMessage, hne, hsl, hget, htrim', hp, hr, getSession_setSession_same]
    · simp [handleMessage, hne, hsl, hget, getSession_setSession_same]
    · simp [handleMessage, hne, hsl, hget, getSession_setSession_same]
    · simp [handleMessage, hne, hsl, hget, getSession_setSession_same]
    · simp only [wellFormedAnswer, reduceIte] at hwf
      have htrim' : jsTrim t ≠ "" := by simpa using hwf
      simp [handleMessage, hne, hsl, hget, htrim', getSession_setSession_same]
    · rw [wellFormedAnswer, if_neg (by decide : ¬(7 : Nat) = 2),
        if_neg (by decide : ¬(7 : Nat) = 6), if_pos (rfl : (7 : Nat) = 7),
        Bool.and_eq_true] at hwf
      obtain ⟨htrim, hmatch⟩ := hwf
      have htrim' : jsTrim t ≠ "" := by simpa using htrim
      cases hp : jsParseInt (jsTrim t) with
      | none => rw [hp] at hmatch; simp at hmatch
      | some n =>
        rw [hp] at hmatch
        have hr : 0 < n ∧ n ≤ 20 := by simpa using hmatch
        simp [handleMessage, hne, hsl, hget, htrim', hp, hr, getSession_setSession_same]
    · rw [wellFormedAnswer, if_neg (by decide : ¬(8 : Nat) = 2),
        if_neg (by decide : ¬(8 : Nat) = 6), if_neg (by decide : ¬(8 : Nat) = 7),
        if_pos (rfl : (8 : Nat) = 8), Bool.and_eq_true] at hwf
      obtain ⟨htrim, hmatch⟩ := hwf
      have htrim' : jsTrim t ≠ "" := by simpa using htrim
      cases hp : jsParseInt (jsTrim t) with
      | none => rw [hp] at hmatch; simp at hmatch
      | some n =>
        rw [hp] at hmatch
        have hr : 0 ≤ n ∧ n ≤ 20 := by simpa using hmatch
        simp [handleMessage, hne, hsl, hget, htrim', hp, hr, getSession_setSession_same]
    · simp [handleMessage, hne, hsl, hget, getSession_setSession_same]
  · intro st c session orig hget hc0
    refine ⟨?_, ?_, ?_, ?_, ?_, ?_, ?_, ?_⟩
    · have e1 : "duration_7" ≠ "" := by decide
      have s1 : jsStartsWith "duration_7" "duration_" = true := rfl
      simp [handleCallback, hc0, e1, s1, hget, getSession_setSession_same]
    · have e1 : "month_July" ≠ "" := by decide
      have s1 : jsStartsWith "month_July" "duration_" = false := rfl
      have s2 : jsStartsWith "month_July" "month_" = true := rfl
      simp [handleCallback, hc0, e1, s1, s2, hget, getSession_setSession_same]
    · have e1 : "season_Winter" ≠ "" := by decide
      have s1 : jsStartsWith "season_Winter" "duration_" = false := rfl
      have s2 : jsStartsWith "season_Winter" "month_" = false := rfl
      have s3 : jsStartsWith "season_Winter" "season_" = true := rfl
      simp [handleCallback, hc0, e1, s1, s2, s3, hget, getSession_setSession_same]
    · have e1 : "currency_USD" ≠ "" := by decide
      have s1 : jsStartsWith "currency_USD" "duration_" = false := rfl
      have s2 : jsStartsWith "currency_USD" "month_" = false := rfl
      have s3 : jsStartsWith "currency_USD" "season_" = false := rfl
      have s4 : jsStartsWith "currency_USD" "style_" = false := rfl
      have s5 : jsStartsWith "currency_USD" "currency_" = true := rfl
      simp [handleCallback, hc0, e1, s1, s2, s3, s4, s5, hget,
        getSession_setSession_same]
    · have e1 : "adults_2" ≠ "" := by decide
      have s1 : jsStartsWith "adults_2" "duration_" = false := rfl
      have s2 : jsStartsWith "adults_2" "month_" = false := rfl
      have s3 : jsStartsWith "adults_2" "season_" = false := rfl
      have s4 : jsStartsWith "adults_2" "style_" = false := rfl
      have s5 : jsStartsWith "adults_2" "currency_" = false := rfl
      have s6 : jsStartsWith "adults_2" "adults_" = true := rfl
      simp [handleCallback, hc0, e1, s1, s2, s3, s4, s5, s6, hget,
        getSession_setSession_same]
    · have e1 : "kids_0" ≠ "" := by decide
      have s1 : jsStartsWith "kids_0" "duration_" = false := rfl
      have s2 : jsStartsWith "kids_0" "month_" = false := rfl
      have s3 : jsStartsWith "kids_0" "season_" = false := rfl
      have s4 : jsStartsWith "kids_0" "style_" = false := rfl
      have s5 : jsStartsWith "kids_0" "currency_" = false := rfl
      have s6 : jsStartsWith "kids_0" "adults_" = false := rfl
      have s7 : jsStartsWith "kids_0" "kids_" = true := rfl
      simp [handleCallback, hc0, e1, s1, s2, s3, s4, s5, s6, s7, hget,
        getSession_setSession_same]
    · have e1 : "style_done" ≠ "" := by decide
      have s1 : jsStartsWith "style_done" "duration_" = false := rfl
      have s2 : jsStartsWith "style_done" "month_" = false := rfl
      have s3 : jsStartsWith "style_done" "season_" = false := rfl
      have s4 : jsStartsWith "style_done" "style_" = true := rfl
      have s5 : jsSplit "style_done" (Char.ofNat 95) = ["style", "done"] := rfl
      simp [handleCallback, hc0, e1, s1, s2, s3, s4, s5, hget,
        getSession_setSession_same]
    · have e1 : "luxury_4" ≠ "" := by decide
      have s1 : jsStartsWith "luxury_4" "duration_" = false := rfl
      have s2 : jsStartsWith "luxury_4" "month_" = false := rfl
      have s3 : jsStartsWith "luxury_4" "season_" = false := rfl
      have s4 : jsStartsWith "luxury_4" "style_" = false := rfl
      have s5 : jsStartsWith "luxury_4" "currency_" = false := rfl
      have s6 : jsStartsWith "luxury_4" "adults_" = false := rfl
      have s7 : jsStartsWith "luxury_4" "kids_" = false := rfl
      have s8 : jsStartsWith "luxury_4" "luxury_" = true := rfl
      simp [handleCallback, hc0, e1, s1, s2, s3, s4, s5, s6, s7, s8, hget,
        getSession_setSession_same]

/-- C1 witness: a destination answer at step 1 advances to step 2; a
`duration_7` click leaves the step at 2. -/
theorem c1_amended_step_advance_witness :
    (getSession
      (handleMessage [(1, { step := 1, tripData := {}, messageIds := [], userId := "" })]
        1 (some "Paris")).1 1).map UserSession.step = some (1 + 1) ∧
    (getSession
      (handleCallback [(5, { step := 2, tripData := {}, messageIds := [], userId := "" })]
        5 none "duration_7").1 5).map UserSession.step = some 2 :=
  ⟨c1_amended_step_advance.1
      [(1, { step := 1, tripData := {}, messageIds := [], userId := "" })] 1
      { step := 1, tripData := {}, messageIds := [], userId := "" } "Paris"
      rfl (by decide) (by decide) (by decide) rfl (by decide),
   (c1_amended_step_advance.2
      [(5, { step := 2, tripData := {}, messageIds := [], userId := "" })] 5
      { step := 2, tripData := {}, messageIds := [], userId := "" } none
      rfl (by decide)).1⟩

/-! ### Claim C7 -/

theorem style_prefixed_ne_empty (s : String) : ("style_" ++ s) ≠ "" := by
  intro h
  have h2 := congrArg String.data h
  simp [string_data_append] at h2

theorem jsToggle_twice_perm (l : List String) (s : String) (h : l.Nodup) :
    (jsToggle (jsToggle l s) s).Perm l := by
  by_cases hc : s ∈ l
  · have hc1 : l.contains s = true := by simpa using hc
    have hc2 : (l.erase s).contains s = false := by
      simpa using h.not_mem_erase
    have hinner : jsToggle l s = l.erase s := by rw [jsToggle, if_pos hc1]
    rw [hinner, jsToggle, hc2]
    simp only [Bool.false_eq_true, if_false]
    exact (List.perm_append_singleton s (l.erase s)).trans
      (List.perm_cons_erase hc).symm
  · have hc1 : l.contains s = false := by simpa using hc
    have hc2 : (l ++ [s]).contains s = true := by simp
    have hinner : jsToggle l s = l ++ [s] := by
      rw [jsToggle, hc1]
      simp
    rw [hinner, jsToggle, if_pos hc2, List.erase_append_right _ (by simpa using hc),
      List.erase_cons_head]
    simp

theorem handleCallback_style_toggle (st : SessionStore) (c : Int)
    (session : UserSession) (orig : Option String) (s : String)
    (hget : getSession st c = some session) (hc0 : c ≠ 0)
    (hstyle : (jsSplit ("style_" ++ s) (Char.ofNat 95))[1]?.getD "" ≠ "done") :
    (handleCallback st c orig ("style_" ++ s)).1 =
      setSession st c
        { session with
          tripData := { session.tripData with
            vacationStyle := some (jsToggle
              (match session.tripData.vacationStyle with
               | some l => l
               | none => [])
              ((jsSplit ("style_" ++ s) (Char.ofNat 95)).getD 1 "")) } } := by
  have hne := style_prefixed_ne_empty s
  have s1 : jsStartsWith ("style_" ++ s) "duration_" = false := rfl
  have s2 : jsStartsWith ("style_" ++ s) "month_" = false := rfl
  have s3 : jsStartsWith ("style_" ++ s) "season_" = false := rfl
  have s4 : jsStartsWith ("style_" ++ s) "style_" = true := rfl
  simp [handleCallback, hc0, hne, s1, s2, s3, s4, hget, hstyle, List.getD]

/-- C7: in the vacation-style state, clicking the same style button twice
returns the selected-style set to (a permutation of) its prior value with
the step untouched; and clicking "Done" with an empty or missing selection
stores the one-element default set and advances to step 5. -/
theorem c7_style_toggle :
    (∀ (st : SessionStore) (chatId : Int) (session : UserSession)
        (origText : Option String) (s : String),
      getSession st chatId = some session → chatId ≠ 0 →
      (jsSplit ("style_" ++ s) (Char.ofNat 95)).getD 1 "" ≠ "done" →
      (match session.tripData.vacationStyle with
       | some l => l
       | none => []).Nodup →
      ∃ session2,
        getSession
          ((handleCallback ((handleCallback st chatId origText ("style_" ++ s)).1)
            chatId origText ("style_" ++ s)).1) chatId = some session2 ∧
        session2.step = session.step ∧
        ∃ l2, session2.tripData.vacationStyle = some l2 ∧
          l2.Perm (match session.tripData.vacationStyle with
                   | some l => l
                   | none => [])) ∧
    (∀ (st : SessionStore) (chatId : Int) (session : UserSession)
        (origText : Option String),
      getSession st chatId = some session → chatId ≠ 0 →
      (session.tripData.vacationStyle = none ∨
        session.tripData.vacationStyle = some []) →
      getSession ((handleCallback st chatId origText "style_done").1) chatId =
        some { session with
               step := 5
               tripData := { session.tripData with
                             vacationStyle := some ["General Tourism"] } }) := by
  constructor
  · intro st c session orig s hget hc0 hstyle hnodup
    have hstyle2 : (jsSplit ("style_" ++ s) (Char.ofNat 95))[1]?.getD "" ≠ "done" := by
      simpa [List.getD] using hstyle
    have h1 := handleCallback_style_toggle st c session orig s hget hc0 hstyle2
    have hget2 := getSession_setSession_same st c
      { session with
        tripData := { session.tripData with
          vacationStyle := some (jsToggle
            (match session.tripData.vacationStyle with
             | some l => l
             | none => [])
            ((jsSplit ("style_" ++ s) (Char.ofNat 95)).getD 1 "")) } }
    have h2 := handleCallback_style_toggle _ c _ orig s hget2 hc0 hstyle2
    rw [← h1] at h2
    refine ⟨{ session with
        tripData := { session.tripData with
          vacationStyle := some (jsToggle (jsToggle
            (match session.tripData.vacationStyle with
             | some l => l
             | none => [])
            ((jsSplit ("style_" ++ s) (Char.ofNat 95)).getD 1 ""))
            ((jsSplit ("style_" ++ s) (Char.ofNat 95)).getD 1 "")) } },
      ?_, by simp, ⟨_, rfl, jsToggle_twice_perm _ _ hnodup⟩⟩
    rw [h2, getSession_setSession_same]
  · intro st c session orig hget hc0 hemp
    have hne : ("style_done" : String) ≠ "" := by decide
    have s1 : jsStartsWith "style_done" "duration_" = false := rfl
    have s2 : jsStartsWith "style_done" "month_" = false := rfl
    have s3 : jsStartsWith "style_done" "season_" = false := rfl
    have s4 : jsStartsWith "style_done" "style_" = true := rfl
    have s5 : jsSplit "style_done" (Char.ofNat 95) = ["style", "done"] := rfl
    rcases hemp with h | h <;>
      simp [handleCallback, hc0, hne, s1, s2, s3, s4, s5, hget, h,
        getSession_setSession_same]

/-- C7 witness: toggling "City" twice on a session that has selected
Beach&Islands and City restores the set up to permutation; "Done" with no
selection stores the default and moves to step 5. -/
theorem c7_style_toggle_witness :
    (∃ session2,
      getSession
        ((handleCallback
          ((handleCallback
            [(1, { step := 4,
                   tripData := { vacationStyle := some ["Beach&Islands", "City"] },
                   messageIds := [], userId := "" })] 1 none ("style_" ++ "City")).1)
          1 none ("style_" ++ "City")).1) 1 = some session2 ∧
      session2.step = 4 ∧
      ∃ l2, session2.tripData.vacationStyle = some l2 ∧
        l2.Perm ["Beach&Islands", "City"]) ∧
    getSession
      ((handleCallback
        [(1, { step := 4, tripData := {}, messageIds := [], userId := "" })]
        1 none "style_done").1) 1 =
      some { step := 5, tripData := { vacationStyle := some ["General Tourism"] },
             messageIds := [], userId := "" } := by
  constructor
  · exact c7_style_toggle.1
      [(1, { step := 4,
             tripData := { vacationStyle := some ["Beach&Islands", "City"] },
             messageIds := [], userId := "" })] 1
      { step := 4, tripData := { vacationStyle := some ["Beach&Islands", "City"] },
        messageIds := [], userId := "" } none "City" rfl (by decide) (by decide)
      (by decide)
  · exact c7_style_toggle.2
      [(1, { step := 4, tripData := {}, messageIds := [], userId := "" })] 1
      { step := 4, tripData := {}, messageIds := [], userId := "" } none
      rfl (by decide) (Or.inl rfl)

/-- C2 witness: the amended statement applied to the unmatched destination
"Nowhereville". -/
theorem c2_amended_city_default_witness :
    ("city", "9395") ∈
      [("pcs", "1"), ("cid", "1937751"), ("hl", "en-us"), ("city", "9395"),
       ("checkIn", "2025-11-11"), ("checkOut", "2025-11-16"), ("adults", "2")] :=
  c2_amended_city_default ⟨⟨2025, 10, 12⟩, 0⟩ { destination := some "Nowhereville" }
    [("pcs", "1"), ("cid", "1937751"), ("hl", "en-us"), ("city", "9395"),
     ("checkIn", "2025-11-11"), ("checkOut", "2025-11-16"), ("adults", "2")]
    (by decide) rfl
